import Mathlib

/-!
Verification of the AI multi-agent content-creation pipeline
(agents/coordinator.py, agents/researcher.py, agents/editor.py,
agents/seo_optimizer.py, utils/tools.py) against its natural-language
specification.

The Python code is shallowly embedded: Python `str` is modelled as
`List Char` (named `Str`), Python numbers as `ℚ` (for values that are
`float` at runtime) or `ℤ`/`ℕ` (for values that are `int` at runtime),
Python dicts of fixed shape as structures, and optional dict keys as
`Option`.  Python string methods (`split`, `strip`, `replace`,
`count`, `find`, slicing, `in`) are implemented below with Python's
exact semantics for the inputs the code can produce (ASCII case
conversion; IEEE floats are idealised as exact rationals, which is the
standard shallow-embedding choice and is noted wherever it matters).
List indexing and division sites of the Python code are modelled with
`Option` where the spec claims absence of runtime errors.
-/

set_option allowUnsafeReducibility true
set_option maxRecDepth 200000
attribute [local semireducible] Rat.mul Rat.add Rat.sub Rat.inv

/-- Python `str` is modelled as a list of characters. -/
abbrev Str := List Char

/-- Coerce a Lean string literal to the model type. -/
def str (s : String) : Str := s.data

/-- Python whitespace (`str.split()` / `str.strip()` / regex `\s`), ASCII part. -/
def pyIsSpace (c : Char) : Bool :=
  c = ' ' || c = '\t' || c = '\n' || c = '\r' || c = '\x0b' || c = '\x0c'

/-- Python `str.lower()` (ASCII). -/
def toLowerStr (s : Str) : Str := s.map Char.toLower

/-- Drop chars satisfying `p` from the end. -/
def dropWhileEnd (p : Char → Bool) (s : Str) : Str :=
  (s.reverse.dropWhile p).reverse

/-- Python `str.strip()` with no argument. -/
def pyStrip (s : Str) : Str :=
  dropWhileEnd pyIsSpace (s.dropWhile pyIsSpace)

/-- Python `str.lstrip(cs)`. -/
def pyLstripChars (cs : Str) (s : Str) : Str :=
  s.dropWhile (fun c => cs.contains c)

/-- Python `str.strip(cs)`. -/
def pyStripChars (cs : Str) (s : Str) : Str :=
  dropWhileEnd (fun c => cs.contains c) (s.dropWhile (fun c => cs.contains c))

mutual

/-- Splitting on runs of delimiter chars (`re.split(r'[..]+', s)`):
segment-accumulating state (`acc` is the reversed current segment). -/
def splitRunsAux (p : Char → Bool) : Str → Str → List Str
  | acc, [] => [acc.reverse]
  | acc, c :: t =>
    if p c then acc.reverse :: splitRunsSkip p t
    else splitRunsAux p (c :: acc) t

/-- Splitting on runs of delimiter chars: inside a delimiter run. -/
def splitRunsSkip (p : Char → Bool) : Str → List Str
  | [] => [[]]
  | c :: t => if p c then splitRunsSkip p t else splitRunsAux p [c] t

end

/-- Embeds `re.split` on a character-class run, e.g. `re.split(r'[.!?]+', s)`:
`n` delimiter runs produce `n + 1` segments. -/
def splitRuns (p : Char → Bool) (s : Str) : List Str :=
  splitRunsAux p [] s

/-- Python `str.split()` with no argument: whitespace runs, no empty parts. -/
def pySplitWs (s : Str) : List Str :=
  (splitRuns pyIsSpace s).filter (fun seg => !seg.isEmpty)

/-- Embeds `len(s.split())`, the word count used throughout the repo. -/
def wordCount (s : Str) : ℕ := (pySplitWs s).length

/-- Index of the leftmost occurrence of `sub` in `s` (Python `str.find` core). -/
def findSub (sub : Str) : Str → Option ℕ
  | [] => if sub.isEmpty then some 0 else none
  | c :: t =>
    if sub.isPrefixOf (c :: t) then some 0
    else (findSub sub t).map (· + 1)

/-- Python `sub in s`. -/
def hasSubstr (s sub : Str) : Bool := (findSub sub s).isSome

/-- Python `s.find(sub)`: index or `-1`. -/
def pyFind (s sub : Str) : ℤ :=
  match findSub sub s with
  | some n => (n : ℤ)
  | none => -1

/-- Fuel-indexed splitter: `pySplitOnF fuel sep s` computes Python
`s.split(sep)` for non-empty `sep` whenever `s.length < fuel`
(the fuel makes the recursion structural, hence kernel-evaluable). -/
def pySplitOnF : ℕ → Str → Str → List Str
  | 0, _, s => [s]
  | fuel + 1, sep, s =>
    match findSub sep s with
    | none => [s]
    | some n => s.take n :: pySplitOnF fuel sep (s.drop (n + sep.length))

/-- Python `s.split(sep)` for a given separator (leftmost, non-overlapping).
Python raises on an empty separator; the repo only splits on non-empty
literals, and we return `[s]` in that unreachable case. -/
def pySplitOn (sep s : Str) : List Str :=
  if sep.isEmpty then [s] else pySplitOnF (s.length + 1) sep s

/-- Python `sep.join(xs)`. -/
def pyJoin (sep : Str) (xs : List Str) : Str := List.intercalate sep xs

/-- Python `s.count(sub)`: non-overlapping occurrences; `len(s) + 1` for
an empty pattern. -/
def pyCount (s sub : Str) : ℕ :=
  if sub.isEmpty then s.length + 1 else (pySplitOn sub s).length - 1

/-- Python `s.replace(old, new)`. -/
def pyReplace (s old new : Str) : Str :=
  if old.isEmpty then new ++ (s.foldr (fun c acc => c :: (new ++ acc)) [])
  else pyJoin new (pySplitOn old s)

/-- Python `s.replace(old, new, 1)`. -/
def pyReplaceFirst (s old new : Str) : Str :=
  if old.isEmpty then new ++ s
  else
    match findSub old s with
    | none => s
    | some n => s.take n ++ new ++ s.drop (n + old.length)

/-- Python `s.startswith(p)`. -/
def pyStartsWith (s p : Str) : Bool := p.isPrefixOf s

/-- Python `s.endswith(p)`. -/
def pyEndsWith (s p : Str) : Bool := p.isSuffixOf s

/-- Python `s[a:b]` for `0 ≤ a ≤ b`. -/
def pySlice (s : Str) (a b : ℕ) : Str := (s.drop a).take (b - a)

/-- Python `s[-n:]`: the last `n` characters (all of `s` when shorter). -/
def pyTakeLast (n : ℕ) (s : Str) : Str := s.drop (s.length - n)

/-- Decimal digit character. -/
def digitChar (n : ℕ) : Char := Char.ofNat (48 + n % 10)

/-- Decimal representation of a natural number (fuel-structural; fuel
`n + 1` always suffices since `n / 10 < n` for `n ≥ 10`). -/
def natReprAux : ℕ → ℕ → Str → Str
  | 0, n, acc => digitChar n :: acc
  | fuel + 1, n, acc =>
    if n < 10 then digitChar n :: acc
    else natReprAux fuel (n / 10) (digitChar (n % 10) :: acc)

/-- Python `f"{n}"` for an `int` value `n ≥ 0`. -/
def natRepr (n : ℕ) : Str := natReprAux (n + 1) n []

/-- Python `f"{z}"` for an `int` value. -/
def intRepr (z : ℤ) : Str :=
  if z < 0 then '-' :: natRepr z.natAbs else natRepr z.natAbs

/-- Truncated decimal expansion of a rational in `[0, 1)` (at most `k` digits;
stops early at zero).  The repo only renders rationals with short finite
decimal expansions, where this is exact. -/
def qFracDigits : ℚ → ℕ → Str
  | _, 0 => []
  | f, k + 1 =>
    if f = 0 then []
    else
      let d := (⌊f * 10⌋).toNat
      digitChar d :: qFracDigits (f * 10 - (⌊f * 10⌋ : ℚ)) k

/-- Python `f"{x}"` for a `float` value, idealised over exact rationals
(e.g. `45 ↦ "45.0"`, `33.33 ↦ "33.33"`). -/
def qRender (q : ℚ) : Str :=
  (if q < 0 then ['-'] else []) ++ natRepr (⌊|q|⌋).toNat ++
    '.' :: (let ds := qFracDigits (|q| - (⌊|q|⌋ : ℚ)) 12
            if ds.isEmpty then ['0'] else ds)

/-- Round-half-to-even to an integer (Python `round`). -/
def roundHalfEven (x : ℚ) : ℤ :=
  let n := ⌊x⌋
  let r := x - (n : ℚ)
  if r < 1 / 2 then n
  else if 1 / 2 < r then n + 1
  else if n % 2 = 0 then n else n + 1

/-- Python `round(x, 2)` (idealised over exact rationals). -/
def pyRound2 (x : ℚ) : ℚ := (roundHalfEven (x * 100) : ℚ) / 100

/-- Python `round(x, 1)` (idealised over exact rationals). -/
def pyRound1 (x : ℚ) : ℚ := (roundHalfEven (x * 10) : ℚ) / 10

/-- Python `int(x)` (truncation toward zero). -/
def pyInt (q : ℚ) : ℤ := q.num / (q.den : ℤ)

/-- Python `str.isupper()` (ASCII): at least one cased character and no
lowercase character. -/
def pyIsUpperStr (s : Str) : Bool :=
  s.any (fun c => c.isUpper || c.isLower) && s.all (fun c => !c.isLower)

/-- All indices at which `sub` occurs in `s`; matches the overlapping
`str.find(_, start := pos + 1)` loop in `_analyze_keywords`, including
indices `0..len` for an empty pattern. -/
def allOccIdx (s sub : Str) : List ℕ :=
  (List.range (s.length + 1)).filter (fun i => sub.isPrefixOf (s.drop i))

/-! ## utils/tools.py -/

/-- The sentence delimiter class `[.!?]` used by `re.split(r'[.!?]+', _)`. -/
def sentenceDelim (c : Char) : Bool := c = '.' || c = '!' || c = '?'

namespace Tools

/-- Embeds `[p for p in content.split('\n\n') if p.strip()]` (the original,
unstripped paragraphs are kept). -/
def paragraphs (content : Str) : List Str :=
  (pySplitOn (str "\n\n") content).filter (fun p => !(pyStrip p).isEmpty)

/-- Embeds `ContentValidatorTool._calculate_readability`. -/
def calculateReadability (content : Str) : ℚ :=
  let sentences : ℤ := (splitRuns sentenceDelim content).length - 1
  let words : ℕ := wordCount content
  if sentences = 0 then 0
  else
    let avg : ℚ := (words : ℚ) / (sentences : ℚ)
    pyRound2 (max 0 (100 - avg * 2))

/-- One step of building the insertion-ordered `word_freq` dict. -/
def bumpFreq (m : List (Str × ℕ)) (w : Str) : List (Str × ℕ) :=
  if m.any (fun p => p.1 = w) then
    m.map (fun p => if p.1 = w then (p.1, p.2 + 1) else p)
  else m ++ [(w, 1)]

/-- Embeds `ContentValidatorTool._identify_issues`: long paragraphs, repetitive
words (length > 5 occurring > 10 times), missing final punctuation. -/
def identifyIssues (content : Str) : List Str :=
  let paras := paragraphs content
  let longIssues := (paras.enum).filterMap (fun pr =>
    if 200 < wordCount pr.2 then
      some (str "Paragraph " ++ natRepr (pr.1 + 1) ++ str " is very long (" ++
        natRepr (wordCount pr.2) ++ str " words)")
    else none)
  let words := pySplitWs (toLowerStr content)
  let freq := words.foldl (fun m w => if 5 < w.length then bumpFreq m w else m) []
  let repIssues := freq.filterMap (fun p =>
    if 10 < p.2 then
      some (str "Word \x27" ++ p.1 ++ str "\x27 appears " ++ natRepr p.2 ++
        str " times (potentially repetitive)")
    else none)
  let punctIssues :=
    match (pyStrip content).getLast? with
    | some c => if sentenceDelim c then [] else [str "Content doesn\x27t end with proper punctuation"]
    | none => [str "Content doesn\x27t end with proper punctuation"]
  longIssues ++ repIssues ++ punctIssues

/-- The result dict of `ContentValidatorTool.run`.  `quality_score` is an
`int` at runtime (pure integer arithmetic). -/
structure ValidationResults where
  word_count : ℕ
  character_count : ℕ
  sentence_count : ℤ
  paragraph_count : ℕ
  readability_score : ℚ
  issues : List Str
  quality_score : ℤ
deriving DecidableEq

/-- Embeds `ContentValidatorTool._calculate_quality_score`. -/
def calculateQualityScore (metrics : ValidationResults) : ℤ :=
  let s1 : ℤ := 100 - 5 * metrics.issues.length
  let s2 := if metrics.readability_score < 30 then s1 - 20
    else if metrics.readability_score < 50 then s1 - 10 else s1
  let s3 := if metrics.word_count < 100 then s2 - 30
    else if metrics.word_count < 300 then s2 - 15
    else if 3000 < metrics.word_count then s2 - 10 else s2
  max 0 (min 100 s3)

/-- Embeds `ContentValidatorTool.run` (the `try` body; no sub-step of the body can
raise, so the `except` branch is unreachable). -/
def contentValidatorRun (content : Str) : ValidationResults :=
  let base : ValidationResults :=
    { word_count := wordCount content
      character_count := content.length
      sentence_count := (splitRuns sentenceDelim content).length - 1
      paragraph_count := (paragraphs content).length
      readability_score := calculateReadability content
      issues := identifyIssues content
      quality_score := 0 }
  { base with quality_score := calculateQualityScore base }

/-- The `keyword_analysis` dict of `SEOAnalyzerTool._analyze_keywords`.
Dicts keyed by the keywords are modelled as association lists in insertion
order (for duplicate keywords Python would overwrite with the identical
value; the association lists read through `lookup` the same way). -/
structure KeywordAnalysis where
  target_keywords : List Str
  keyword_density : List (Str × ℚ)
  keyword_positions : List (Str × List ℕ)
  missing_keywords : List Str
deriving DecidableEq

/-- Embeds `SEOAnalyzerTool._analyze_keywords`. -/
def analyzeKeywords (content : Str) (keywords : List Str) : KeywordAnalysis :=
  let content_lower := toLowerStr content
  keywords.foldl (fun acc keyword =>
    let kl := toLowerStr keyword
    let count := pyCount content_lower kl
    let total_words := wordCount content
    { acc with
      keyword_density := acc.keyword_density ++
        (if 0 < total_words then [(keyword, pyRound2 ((count : ℚ) / total_words * 100))] else [])
      keyword_positions := acc.keyword_positions ++ [(keyword, allOccIdx content_lower kl)]
      missing_keywords := acc.missing_keywords ++ (if count = 0 then [keyword] else []) })
    { target_keywords := keywords
      keyword_density := []
      keyword_positions := []
      missing_keywords := [] }

/-- Embeds `re.search(r'#+\s', content)`: some `'#'` immediately followed by a
whitespace character (a match can always start at the last `'#'` of a run). -/
def hasHashWs : Str → Bool
  | c1 :: c2 :: t => (c1 = '#' && pyIsSpace c2) || hasHashWs (c2 :: t)
  | _ => false

/-- One line matched against `^(#+)\s+(.+)$`, returning the `"H{n}: {text}"`
entry of `_check_heading_hierarchy` (with regex backtracking: when the rest
of the line is all whitespace, `.+` takes the last whitespace character). -/
def parseHeading (line : Str) : Option Str :=
  let hashes := line.takeWhile (fun c => c = '#')
  if hashes.isEmpty then none
  else
    let rest := line.drop hashes.length
    let ws := rest.takeWhile pyIsSpace
    if ws.isEmpty then none
    else
      let body := rest.drop ws.length
      if !body.isEmpty then
        some (str "H" ++ natRepr hashes.length ++ str ": " ++ body)
      else if 2 ≤ ws.length then
        some (str "H" ++ natRepr hashes.length ++ str ": " ++ ws.drop (ws.length - 1))
      else none

/-- Embeds `SEOAnalyzerTool._check_heading_hierarchy`. -/
def checkHeadingHierarchy (content : Str) : List Str :=
  (pySplitOn (str "\n") content).filterMap parseHeading

/-- One line matched against multiline `^\s*[-*+]\s`: the first
non-whitespace character is a list marker followed by whitespace (a marker
that ends the line still matches when a newline follows, i.e. on every line
but the last). -/
def lineIsListItem (isLastLine : Bool) (line : Str) : Bool :=
  match line.dropWhile pyIsSpace with
  | d :: rest =>
    (d = '-' || d = '*' || d = '+') &&
      (match rest with
       | c :: _ => pyIsSpace c
       | [] => !isLastLine)
  | [] => false

/-- Embeds `bool(re.search(r'^\s*[-*+]\s', content, re.MULTILINE))`. -/
def hasLists (content : Str) : Bool :=
  let lines := pySplitOn (str "\n") content
  (lines.enum).any (fun pr => lineIsListItem (pr.1 = lines.length - 1) pr.2)

/-- Index of the first occurrence of `c` reachable without crossing a
newline (regex `.` does not match `'\n'`). -/
def findCharNoNl (c : Char) : Str → Option ℕ
  | [] => none
  | x :: t =>
    if x = '\n' then none
    else if x = c then some 0
    else (findCharNoNl c t).map (· + 1)

/-- Index of the first occurrence of `sub` reachable without crossing a
newline. -/
def findStrNoNl (sub : Str) : Str → Option ℕ
  | [] => none
  | x :: t =>
    if sub.isPrefixOf (x :: t) then some 0
    else if x = '\n' then none
    else (findStrNoNl sub t).map (· + 1)

/-- Length of a `\[.*?\]\(.*?\)` match starting at the head of `s`
(which must be `'['`). -/
def linkMatchLen (s : Str) : Option ℕ :=
  match s with
  | '[' :: rest =>
    match findStrNoNl (str "](") rest with
    | none => none
    | some k =>
      match findCharNoNl ')' (rest.drop (k + 2)) with
      | none => none
      | some j => some (1 + k + 2 + j + 1)
  | _ => none

/-- Non-overlapping left-to-right count of `\[.*?\]\(.*?\)` matches
(fuel-structural; each step consumes at least one character). -/
def countLinksF : ℕ → Str → ℕ
  | 0, _ => 0
  | fuel + 1, s =>
    match s with
    | [] => 0
    | _ :: t =>
      match linkMatchLen s with
      | some m => 1 + countLinksF fuel (s.drop m)
      | none => countLinksF fuel t

/-- Embeds `len(re.findall(r'\[.*?\]\(.*?\)', content))`. -/
def countLinks (s : Str) : ℕ := countLinksF (s.length + 1) s

/-- The `content_structure` dict of `SEOAnalyzerTool._analyze_structure`. -/
structure ContentStructure where
  has_headings : Bool
  heading_hierarchy : List Str
  paragraph_count : ℕ
  avg_paragraph_length : ℚ
  has_lists : Bool
  internal_links : ℕ
  word_count : ℕ
deriving DecidableEq

/-- Embeds `SEOAnalyzerTool._analyze_structure`. -/
def analyzeStructure (content : Str) : ContentStructure :=
  let paras := paragraphs content
  { has_headings := hasHashWs content
    heading_hierarchy := checkHeadingHierarchy content
    paragraph_count := paras.length
    avg_paragraph_length :=
      if paras.isEmpty then 0
      else pyRound1 (((paras.map (fun p => (wordCount p : ℚ))).sum) / (paras.length : ℚ))
    has_lists := hasLists content
    internal_links := countLinks content
    word_count := wordCount content }

/-- The dict of `SEOAnalyzerTool._generate_meta_suggestions`. -/
structure MetaSuggestions where
  title : Str
  description : Str
deriving DecidableEq

/-- Embeds `SEOAnalyzerTool._generate_meta_suggestions`. -/
def generateMetaSuggestions (content : Str) : MetaSuggestions :=
  let sentences := splitRuns sentenceDelim content
  let first_sentence := match sentences with
    | [] => ([] : Str)
    | s :: _ => pyStrip s
  let title_suggestion :=
    if 60 < first_sentence.length then first_sentence.take 60 ++ str "..."
    else first_sentence
  let description_suggestion :=
    if 155 < content.length then content.take 155 ++ str "..." else content
  { title := title_suggestion
    description := pyStrip (pyReplace description_suggestion (str "\n") (str " ")) }

/-- The result dict of `SEOAnalyzerTool.run`.  `seo_score` is an `int` at
runtime. -/
structure SEOAnalysis where
  keyword_analysis : KeywordAnalysis
  content_structure : ContentStructure
  meta_suggestions : MetaSuggestions
  seo_score : ℤ
  recommendations : List Str
deriving DecidableEq

/-- Embeds `SEOAnalyzerTool._calculate_seo_score`. -/
def calculateSeoScore (keyword_analysis : KeywordAnalysis)
    (structure_ : ContentStructure) : ℤ :=
  let s1 : ℤ :=
    if !keyword_analysis.missing_keywords.isEmpty then
      100 - 10 * keyword_analysis.missing_keywords.length
    else 100
  let s2 := if !structure_.has_headings then s1 - 20 else s1
  let s3 := if structure_.word_count < 300 then s2 - 15 else s2
  let s4 := if 150 < structure_.avg_paragraph_length then s3 - 10 else s3
  max 0 (min 100 s4)

/-- Embeds `SEOAnalyzerTool._generate_recommendations`. -/
def generateSeoRecommendations (keyword_analysis : KeywordAnalysis)
    (structure_ : ContentStructure) : List Str :=
  (if !keyword_analysis.missing_keywords.isEmpty then
    [str "Include missing keywords: " ++
      pyJoin (str ", ") keyword_analysis.missing_keywords]
   else []) ++
  (if !structure_.has_headings then [str "Add headings to improve content structure"] else []) ++
  (if structure_.word_count < 300 then [str "Increase content length to at least 300 words"] else []) ++
  (if 150 < structure_.avg_paragraph_length then [str "Break up long paragraphs for better readability"] else []) ++
  (if !structure_.has_lists then [str "Consider adding bullet points or numbered lists"] else []) ++
  (if structure_.internal_links = 0 then [str "Add internal links to related content"] else [])

/-- Embeds `SEOAnalyzerTool.run` (the `try` body; no sub-step can raise). -/
def seoAnalyzerRun (content : Str) (target_keywords : List Str) : SEOAnalysis :=
  let ka := analyzeKeywords content target_keywords
  let cs := analyzeStructure content
  { keyword_analysis := ka
    content_structure := cs
    meta_suggestions := generateMetaSuggestions content
    seo_score := calculateSeoScore ka cs
    recommendations := generateSeoRecommendations ka cs }

end Tools

/-! ## agents/coordinator.py -/

/-- Python `f"{x}"` where `x` held an `int` in the runs the repo performs
(`word_count` requirement values); falls back to float rendering for
non-integral rationals. -/
def pyNumRender (q : ℚ) : Str :=
  if q.den = 1 then intRepr q.num else qRender q

namespace Coordinator

/-- The `requirements` dict: each key may be absent. `word_count` is a
number (modelled as an exact rational). -/
structure Requirements where
  topic : Option Str := none
  target_audience : Option Str := none
  word_count : Option ℚ := none
  tone : Option Str := none
  seo_keywords : Option (List Str) := none
  content_type : Option Str := none
deriving DecidableEq

/-- The `structure_requirements` sub-dict of the quality criteria. -/
structure StructureRequirements where
  has_introduction : Bool
  has_conclusion : Bool
  has_headings : Bool
  max_paragraph_length : ℕ
deriving DecidableEq

/-- The `seo_requirements` sub-dict of the quality criteria. -/
structure SeoRequirements where
  keyword_density_min : ℚ
  keyword_density_max : ℚ
  meta_title_min : ℕ
  meta_title_max : ℕ
  meta_description_min : ℕ
  meta_description_max : ℕ
deriving DecidableEq

/-- The dict returned by `CoordinatorAgent._define_quality_criteria`. -/
structure QualityCriteria where
  minimum_word_count : ℚ
  maximum_word_count : ℚ
  required_keywords : List Str
  readability_score : ℕ
  structure_requirements : StructureRequirements
  seo_requirements : SeoRequirements
deriving DecidableEq

/-- Embeds `CoordinatorAgent._define_quality_criteria`. -/
def defineQualityCriteria (req : Requirements) : QualityCriteria :=
  { minimum_word_count := req.word_count.getD 1000 * (9 / 10)
    maximum_word_count := req.word_count.getD 1000 * (11 / 10)
    required_keywords := req.seo_keywords.getD []
    readability_score := 60
    structure_requirements :=
      { has_introduction := true
        has_conclusion := true
        has_headings := true
        max_paragraph_length := 150 }
    seo_requirements :=
      { keyword_density_min := 1 / 2
        keyword_density_max := 3
        meta_title_min := 30
        meta_title_max := 60
        meta_description_min := 120
        meta_description_max := 160 } }

/-- One task dict of `_generate_task_sequence` (`dependencies` is absent on
the first task). -/
structure PlanTask where
  name : Str
  agent : Str
  description : Str
  deliverables : List Str
  dependencies : Option (List Str)
  estimated_time : Str
deriving DecidableEq

/-- Embeds `CoordinatorAgent._generate_task_sequence`. -/
def generateTaskSequence (req : Requirements) : List PlanTask :=
  [ { name := str "research", agent := str "researcher"
      description := str "Research comprehensive information about \x27" ++
        req.topic.getD [] ++ str "\x27"
      deliverables := [str "research_summary", str "key_facts", str "source_references"]
      dependencies := none
      estimated_time := str "15 minutes" }
  , { name := str "content_writing", agent := str "writer"
      description := str "Write a " ++ pyNumRender (req.word_count.getD 1000) ++
        str "-word " ++ req.content_type.getD (str "blog post")
      deliverables := [str "first_draft"]
      dependencies := some [str "research"]
      estimated_time := str "20 minutes" }
  , { name := str "editing", agent := str "editor"
      description := str "Review and improve content for clarity, flow, and grammar"
      deliverables := [str "edited_content", str "improvement_notes"]
      dependencies := some [str "content_writing"]
      estimated_time := str "10 minutes" }
  , { name := str "seo_optimization", agent := str "seo"
      description := str "Optimize content for SEO with keywords: " ++
        pyJoin (str ", ") (req.seo_keywords.getD [])
      deliverables := [str "seo_optimized_content", str "meta_tags", str "seo_report"]
      dependencies := some [str "editing"]
      estimated_time := str "10 minutes" }
  , { name := str "final_review", agent := str "coordinator"
      description := str "Conduct final quality assurance and approval"
      deliverables := [str "final_content", str "quality_report"]
      dependencies := some [str "seo_optimization"]
      estimated_time := str "5 minutes" } ]

/-- The dict returned by `_estimate_timeline`. -/
structure Timeline where
  estimated_duration : Str
  research_phase : Str
  writing_phase : Str
  editing_phase : Str
  seo_phase : Str
  review_phase : Str
deriving DecidableEq

/-- Embeds `CoordinatorAgent._estimate_timeline`. -/
def estimateTimeline (req : Requirements) : Timeline :=
  let word_count := req.word_count.getD 1000
  let complexity_multiplier : ℚ :=
    if 2000 < word_count then 3 / 2
    else if 1500 < word_count then 6 / 5
    else 1
  let estimated_time := pyInt (60 * complexity_multiplier)
  { estimated_duration := intRepr estimated_time ++ str " minutes"
    research_phase := str "15 minutes"
    writing_phase := str "20 minutes"
    editing_phase := str "10 minutes"
    seo_phase := str "10 minutes"
    review_phase := str "5 minutes" }

/-- The plan dict returned by `create_content_plan`. -/
structure Plan where
  topic : Str
  target_audience : Str
  word_count : ℚ
  tone : Str
  seo_keywords : List Str
  content_type : Str
  tasks : List PlanTask
  quality_criteria : QualityCriteria
  timeline : Timeline
deriving DecidableEq

/-- Embeds `CoordinatorAgent.create_content_plan`. -/
def createContentPlan (req : Requirements) : Plan :=
  { topic := req.topic.getD []
    target_audience := req.target_audience.getD (str "General audience")
    word_count := req.word_count.getD 1000
    tone := req.tone.getD (str "Professional")
    seo_keywords := req.seo_keywords.getD []
    content_type := req.content_type.getD (str "Blog post")
    tasks := generateTaskSequence req
    quality_criteria := defineQualityCriteria req
    timeline := estimateTimeline req }

/-- The plan argument of `validate_content_quality`: a dict whose
`quality_criteria` key may be absent (in which case the `.get` defaults
900/1100 fire).  Plans built by `create_content_plan` always carry the key. -/
structure ValidatePlan where
  quality_criteria : Option QualityCriteria
deriving DecidableEq

/-- The `checks['word_count']` dict. -/
structure WordCountCheck where
  current : ℕ
  target_range : Str
  passed : Bool
deriving DecidableEq

/-- The `checks['structure']` dict.  Note it has NO `passed` key. -/
structure StructureCheck where
  has_introduction : Bool
  has_conclusion : Bool
  has_headings : Bool
deriving DecidableEq

/-- The `checks` dict (insertion order: `word_count`, then `structure`). -/
structure Checks where
  word_count : WordCountCheck
  structure_ : StructureCheck
deriving DecidableEq

/-- The dict returned by `validate_content_quality`. -/
structure ValidationOutcome where
  overall_score : ℚ
  passed : Bool
  checks : Checks
  feedback : List Str
  improvements_needed : List Str
deriving DecidableEq

/-- The `'passed'` values of the `checks` dict entries in insertion order:
`checks['word_count']` has a `'passed'` key, `checks['structure']` does
not, so `check.get('passed', True)` reads `True` for the latter. -/
def checksPassedFlags (c : Checks) : List (Option Bool) :=
  [some c.word_count.passed, none]

/-- The `overall_score` computation of `validate_content_quality`:
`(passed_checks / total_checks) * 100` when there are checks, else the
initial 0. -/
def overallScore (c : Checks) : ℚ :=
  let flags := checksPassedFlags c
  let passed_checks := (flags.filter (fun f => f.getD true)).length
  let total_checks := flags.length
  if 0 < total_checks then ((passed_checks : ℚ) / (total_checks : ℚ)) * 100 else 0

/-- The `passed` computation: set to `overall_score >= 80` when there are
checks, else the initial `False`. -/
def passedFlag (c : Checks) : Bool :=
  if 0 < (checksPassedFlags c).length then decide ((80 : ℚ) ≤ overallScore c) else false

/-- The conclusion markers scanned in the last 200 characters. -/
def conclusionMarkers : List Str :=
  [str "conclusion", str "summary", str "final", str "end"]

/-- The introduction markers scanned in the first 200 characters. -/
def introMarkers : List Str :=
  [str "introduction", str "overview", str "begin", str "start"]

/-- Embeds `CoordinatorAgent.validate_content_quality`. -/
def validateContentQuality (content : Str) (plan : ValidatePlan) : ValidationOutcome :=
  let word_count := wordCount content
  let min_words : ℚ := match plan.quality_criteria with
    | some c => c.minimum_word_count
    | none => 900
  let max_words : ℚ := match plan.quality_criteria with
    | some c => c.maximum_word_count
    | none => 1100
  let wcCheck : WordCountCheck :=
    { current := word_count
      target_range := qRender min_words ++ str "-" ++ qRender max_words
      passed := decide (min_words ≤ (word_count : ℚ) ∧ (word_count : ℚ) ≤ max_words) }
  let improvements_needed :=
    if !wcCheck.passed then
      if (word_count : ℚ) < min_words then
        [str "Content is too short (" ++ natRepr word_count ++ str " words). Add " ++
          qRender (min_words - (word_count : ℚ)) ++ str " more words."]
      else
        [str "Content is too long (" ++ natRepr word_count ++ str " words). Remove " ++
          qRender ((word_count : ℚ) - max_words) ++ str " words."]
    else []
  let content_lower := toLowerStr content
  let has_intro := introMarkers.any (fun k => hasSubstr (content_lower.take 200) k)
  let has_conclusion := conclusionMarkers.any (fun k => hasSubstr (pyTakeLast 200 content_lower) k)
  let has_headings := hasSubstr content (str "#") ||
    (pySplitOn (str "\n") content).any pyIsUpperStr
  let checks : Checks :=
    { word_count := wcCheck
      structure_ :=
        { has_introduction := has_intro
          has_conclusion := has_conclusion
          has_headings := has_headings } }
  let overall_score : ℚ := overallScore checks
  let passedB := passedFlag checks
  let feedback :=
    if passedB then [str "Content meets quality standards and is ready for publication."]
    else str "Content needs improvements before publication." :: improvements_needed
  { overall_score := overall_score
    passed := passedB
    checks := checks
    feedback := feedback
    improvements_needed := improvements_needed }

end Coordinator

/-! ## agents/editor.py -/

namespace Editor

/-- Embeds `EditorAgent._fix_paragraph_spacing`. -/
def fixParagraphSpacing (content : Str) : Str :=
  let paras := pySplitOn (str "\n\n") content
  let cleaned := paras.filterMap (fun para =>
    let cp := pyStrip para
    if cp.isEmpty then none
    else some (pyJoin (str " ") (pySplitOn (str "\n") cp)))
  pyJoin (str "\n\n") cleaned

/-- Embeds `EditorAgent._improve_structure` (its `requirements` parameter is
unused by the Python body). -/
def improveStructure (content : Str) : Str :=
  let lines := pySplitOn (str "\n") content
  let improved_lines := lines.map (fun line =>
    if pyStartsWith line (str "#") then
      let heading_text := pyStrip line
      let level := heading_text.length - (pyLstripChars (str "#") heading_text).length
      let text := pyStrip (pyLstripChars (str "#") heading_text)
      List.replicate level '#' ++ str " " ++ text
    else line)
  fixParagraphSpacing (pyJoin (str "\n") improved_lines)

/-- The `clarity_improvements` replacement dict, in insertion order. -/
def clarityPairs : List (Str × Str) :=
  [ (str "in order to", str "to")
  , (str "due to the fact that", str "because")
  , (str "at this point in time", str "now")
  , (str "for the purpose of", str "to")
  , (str "in the event that", str "if")
  , (str "take into consideration", str "consider")
  , (str "make a decision", str "decide")
  , (str "come to a conclusion", str "conclude")
  , (str "it is important to note that", str "")
  , (str "it should be mentioned that", str "")
  , (str "it is worth noting that", str "") ]

/-- Embeds `EditorAgent._improve_clarity`. -/
def improveClarity (content : Str) : Str :=
  clarityPairs.foldl (fun c pr => pyReplace c pr.1 pr.2) content

/-- The `transition_starters` list of `_improve_flow`. -/
def transitionStarters : List Str :=
  [ str "However,", str "Furthermore,", str "Additionally,", str "Moreover,"
  , str "In contrast,", str "Similarly,", str "Therefore,", str "Consequently," ]

/-- Embeds `EditorAgent._improve_flow`. -/
def improveFlow (content : Str) : Str :=
  let paras := pySplitOn (str "\n\n") content
  let improved := (paras.enum).map (fun pr =>
    let i := pr.1
    let para := pr.2
    if 0 < i && 20 < wordCount para then
      if !(transitionStarters.any (fun st => pyStartsWith (pyStrip para) st)) then
        if hasSubstr (toLowerStr para) (str "benefit") ||
            hasSubstr (toLowerStr para) (str "advantage") then
          if hasSubstr (toLowerStr (paras.getD (i - 1) [])) (str "challenge") then
            str "However, " ++ para
          else str "Additionally, " ++ para
        else if hasSubstr (toLowerStr para) (str "challenge") ||
            hasSubstr (toLowerStr para) (str "difficult") then
          str "However, " ++ para
        else para
      else para
    else para)
  pyJoin (str "\n\n") improved

/-- Embeds `EditorAgent._improve_readability` (the `continue` after a successful
two-part split skips the final `if sentence: append`). -/
def improveReadability (content : Str) : Str :=
  let sentences := pySplitOn (str ".") content
  let improved := sentences.foldl (fun acc s0 =>
    let sentence := pyStrip s0
    let keep := if sentence.isEmpty then acc else acc ++ [sentence]
    if 30 < wordCount sentence then
      if hasSubstr sentence (str " and ") then
        let parts := pySplitOn (str " and ") sentence
        if parts.length = 2 then
          acc ++ [pyStrip (parts.getD 0 []), pyStrip (parts.getD 1 [])]
        else keep
      else if hasSubstr sentence (str " which ") then
        let parts := pySplitOn (str " which ") sentence
        if parts.length = 2 then
          acc ++ [pyStrip (parts.getD 0 []), str "This " ++ pyStrip (parts.getD 1 [])]
        else keep
      else keep
    else keep) []
  pyJoin (str ". ") improved

/-- The `grammar_fixes` replacement dict of `_fix_common_issues`, in
insertion order. -/
def grammarFixes : List (Str × Str) :=
  [ (str " ,", str ",")
  , (str " .", str ".")
  , (str ",,", str ",")
  , (str "..", str ".")
  , (str "  ", str " ") ]

/-- Embeds `EditorAgent._fix_common_issues` (its `quality_analysis` parameter is
unused by the Python body). -/
def fixCommonIssues (content : Str) : Str :=
  let c1 := grammarFixes.foldl (fun c pr => pyReplace c pr.1 pr.2) content
  let sentences := pySplitOn (str ". ") c1
  let capitalized := sentences.map (fun s =>
    match s with
    | [] => ([] : Str)
    | c :: t => if c.isLower then c.toUpper :: t else c :: t)
  pyJoin (str ". ") capitalized

/-- Embeds `EditorAgent._improve_content`: the five improvement stages in
sequence. -/
def improveContent (content : Str) : Str :=
  fixCommonIssues (improveReadability (improveFlow (improveClarity (improveStructure content))))

/-- Embeds `EditorAgent._track_improvements`. -/
def trackImprovements (original improved : Str) : List Str :=
  let ow := wordCount original
  let iw := wordCount improved
  let l1 :=
    if iw ≠ ow then
      if iw < ow then
        [str "Reduced word count by " ++ natRepr (ow - iw) ++ str " words for better conciseness"]
      else
        [str "Expanded content by " ++ natRepr (iw - ow) ++ str " words for better clarity"]
    else []
  let l2 :=
    if pyCount original (str "#") < pyCount improved (str "#") then
      [str "Added headings to improve content structure"]
    else []
  let l3 :=
    if (Tools.paragraphs improved).length ≠ (Tools.paragraphs original).length then
      [str "Reorganized content into better paragraph structure"]
    else []
  let transitions := [str "However", str "Furthermore", str "Additionally", str "Moreover", str "Therefore"]
  let l4 :=
    if (transitions.map (pyCount original)).sum < (transitions.map (pyCount improved)).sum then
      [str "Added transition words to improve flow"]
    else []
  let all := l1 ++ l2 ++ l3 ++ l4
  if all.isEmpty then [str "Made minor improvements to clarity and readability"] else all

/-- Embeds `EditorAgent._generate_editing_notes`. -/
def generateEditingNotes (original improved : Str) (req : Coordinator.Requirements) : List Str :=
  let oq := Tools.contentValidatorRun original
  let iq := Tools.contentValidatorRun improved
  let n1 :=
    if oq.quality_score < iq.quality_score then
      [str "Quality score improved from " ++ intRepr oq.quality_score ++
        str " to " ++ intRepr iq.quality_score]
    else []
  let n2 :=
    if iq.issues.length < oq.issues.length then
      [str "Resolved " ++ natRepr (oq.issues.length - iq.issues.length) ++ str " content issues"]
    else []
  let n3 :=
    if oq.readability_score < iq.readability_score then
      [str "Improved readability score from " ++ qRender oq.readability_score ++
        str " to " ++ qRender iq.readability_score]
    else []
  let target : ℚ := req.word_count.getD 1000
  let actual := wordCount improved
  let n4 :=
    if |(actual : ℚ) - target| ≤ target * (1 / 10) then
      [str "Content length optimized to target (" ++ natRepr actual ++ str " words)"]
    else []
  n1 ++ n2 ++ n3 ++ n4 ++
    [str "Applied standard editorial best practices", str "Ensured consistency in tone and style"]

/-- Embeds `EditorAgent._calculate_final_quality_score`. -/
def calculateFinalQualityScore (content : Str) : ℤ :=
  (Tools.contentValidatorRun content).quality_score

/-- Embeds `EditorAgent._generate_recommendations`. -/
def generateEditorRecommendations (content : Str) (req : Coordinator.Requirements) : List Str :=
  let qa := Tools.contentValidatorRun content
  let qs := qa.quality_score
  let base :=
    if 90 ≤ qs then
      [str "Excellent content quality - ready for publication",
       str "Consider this content for featured placement or promotion"]
    else if 80 ≤ qs then
      [str "Good content quality - minor improvements may enhance impact",
       str "Content is ready for publication"]
    else if 70 ≤ qs then
      [str "Content needs minor improvements before publication",
       str "Consider additional review of structure and clarity"]
    else
      [str "Content requires significant improvements",
       str "Recommend additional editing pass before publication"]
  let issueRecs := (qa.issues.take 3).map (fun issue => str "Address: " ++ issue)
  let word_count := wordCount content
  let target : ℚ := req.word_count.getD 1000
  let wcRecs :=
    if (word_count : ℚ) < target * (9 / 10) then
      [str "Consider expanding content to reach target word count (" ++
        pyNumRender target ++ str " words)"]
    else if target * (11 / 10) < (word_count : ℚ) then
      [str "Consider condensing content to meet target word count (" ++
        pyNumRender target ++ str " words)"]
    else []
  let kws := req.seo_keywords.getD []
  let kwRecs :=
    if !kws.isEmpty then
      let cl := toLowerStr content
      let missing := kws.filter (fun kw => !(hasSubstr cl (toLowerStr kw)))
      if !missing.isEmpty then
        [str "Consider incorporating missing SEO keywords: " ++ pyJoin (str ", ") missing]
      else []
    else []
  (base ++ issueRecs ++ wcRecs ++ kwRecs).take 5

/-- The dict returned by `EditorAgent.edit_content`. -/
structure EditOutput where
  original_content : Str
  edited_content : Str
  quality_analysis : Tools.ValidationResults
  improvements_made : List Str
  editing_notes : List Str
  final_quality_score : ℤ
  recommendations : List Str
deriving DecidableEq

/-- Embeds `EditorAgent.edit_content`. -/
def editContent (content : Str) (req : Coordinator.Requirements) : EditOutput :=
  let quality_analysis := Tools.contentValidatorRun content
  let improved := improveContent content
  { original_content := content
    edited_content := improved
    quality_analysis := quality_analysis
    improvements_made := trackImprovements content improved
    editing_notes := generateEditingNotes content improved req
    final_quality_score := calculateFinalQualityScore improved
    recommendations := generateEditorRecommendations improved req }

end Editor

/-! ## agents/seo_optimizer.py

List-indexing expressions of the Python code (`keywords[0]`, `parts[1]`,
`keywords[keyword_index]`) are modelled with `List.get?` inside the
`Option` monad, so a returned `some` certifies that no `IndexError` can
occur; guarded conditional expressions (`x if cond else y`,
`a / b if b > 0 else 0`) are total in Python and modelled by `if`. -/

namespace SEO

/-- The rewrite of a `'# '` title line performed inside the loop of
`_optimize_title_seo` (the `lines[i] = f"# {title}"` assignment happens
whenever the primary keyword is missing from the title, even when the
`':'` sub-branch leaves `title` unchanged). -/
def optimizeTitleLine (line : Str) (keywords : List Str) : Option Str := do
  let title := pyStrip (line.drop 2)
  match keywords with
  | [] => pure line
  | _ :: _ =>
    let k0 ← keywords.get? 0
    if !(hasSubstr (toLowerStr title) (toLowerStr k0)) then do
      let title2 ←
        if hasSubstr title (str ":") then do
          let parts := pySplitOn (str ":") title
          let p0 ← parts.get? 0
          if !(hasSubstr (toLowerStr p0) (toLowerStr k0)) then do
            let p1 ← parts.get? 1
            pure (k0 ++ str ": " ++ pyStrip p1)
          else pure title
        else pure (k0 ++ str ": " ++ title)
      pure (str "# " ++ title2)
    else pure line

/-- The loop of `_optimize_title_seo`: only the first `'# '` line is
considered (the loop `break`s there). -/
def rewriteFirstTitle (keywords : List Str) : List Str → Option (List Str)
  | [] => some []
  | l :: ls =>
    if pyStartsWith l (str "# ") then do
      let l2 ← optimizeTitleLine l keywords
      pure (l2 :: ls)
    else do
      let ls2 ← rewriteFirstTitle keywords ls
      pure (l :: ls2)

/-- Embeds `SEOAgent._optimize_title_seo`. -/
def optimizeTitleSeo (content : Str) (keywords : List Str) : Option Str := do
  let lines2 ← rewriteFirstTitle keywords (pySplitOn (str "\n") content)
  pure (pyJoin (str "\n") lines2)

/-- The four keyword-integration rewrites of `_optimize_headings_seo`
(the heading may be left unchanged when no case matches). -/
def headingRewrite (keyword heading_text : Str) : Str :=
  let hl := toLowerStr heading_text
  if hasSubstr hl (str "benefits") || hasSubstr hl (str "advantages") then
    keyword ++ str " Benefits and Advantages"
  else if hasSubstr hl (str "challenges") then
    keyword ++ str " Challenges and Solutions"
  else if hasSubstr hl (str "best practices") then
    str "Best Practices for " ++ keyword
  else if hasSubstr hl (str "future") then
    str "Future of " ++ keyword
  else heading_text

/-- The line loop of `_optimize_headings_seo`, with the running
`keyword_index` state (the index advances, and the line is rewritten as
`f"## {heading_text}"`, exactly when the current keyword is missing from
the heading text). -/
def optimizeHeadingsAux (keywords : List Str) : ℕ → List Str → Option (List Str)
  | _, [] => some []
  | idx, line :: rest =>
    if pyStartsWith line (str "##") && !(pyStartsWith line (str "###")) then
      let heading_text := pyStrip (pyLstripChars (str "#") (pyStrip line))
      if idx < keywords.length then do
        let keyword ← keywords.get? idx
        if !(hasSubstr (toLowerStr heading_text) (toLowerStr keyword)) then do
          let rest2 ← optimizeHeadingsAux keywords (idx + 1) rest
          pure ((str "## " ++ headingRewrite keyword heading_text) :: rest2)
        else do
          let rest2 ← optimizeHeadingsAux keywords idx rest
          pure (line :: rest2)
      else do
        let rest2 ← optimizeHeadingsAux keywords idx rest
        pure (line :: rest2)
    else do
      let rest2 ← optimizeHeadingsAux keywords idx rest
      pure (line :: rest2)

/-- Embeds `SEOAgent._optimize_headings_seo`. -/
def optimizeHeadingsSeo (content : Str) (keywords : List Str) : Option Str :=
  if keywords.isEmpty then some content
  else do
    let lines2 ← optimizeHeadingsAux keywords 0 (pySplitOn (str "\n") content)
    pure (pyJoin (str "\n") lines2)

/-- The `generic_terms` list of `_add_keyword_naturally`. -/
def genericTerms : List Str :=
  [str "this technology", str "this approach", str "this method", str "this solution", str "it"]

/-- The inner `for term in generic_terms` loop: the first term found in the
lowercased sentence is replaced once in the original-case sentence (the
replacement is a no-op when the term only occurs with different casing,
but `additions_made` is still incremented — faithful to the code). -/
def replaceGeneric (keyword sentence : Str) : Option Str :=
  match genericTerms.find? (fun term => hasSubstr (toLowerStr sentence) term) with
  | some term => some (pyReplaceFirst sentence term keyword)
  | none => none

/-- The per-paragraph body of `_add_keyword_naturally`, threading the
`additions_made` counter. -/
def addKeywordPara (keyword : Str) (count : ℕ) (made : ℕ) (para : Str) : Str × ℕ :=
  if count ≤ made then (para, made)
  else if pyStartsWith para (str "#") || wordCount para < 20 then (para, made)
  else if !(hasSubstr (toLowerStr para) (toLowerStr keyword)) then
    let sentences := pySplitOn (str ".") para
    let out := sentences.foldl (fun (acc : List Str × ℕ) sentence =>
      if 10 < wordCount sentence && acc.2 < count then
        match replaceGeneric keyword sentence with
        | some s2 => (acc.1 ++ [s2], acc.2 + 1)
        | none => (acc.1 ++ [sentence], acc.2)
      else (acc.1 ++ [sentence], acc.2)) ([], made)
    (pyJoin (str ".") out.1, out.2)
  else (para, made)

/-- Embeds `SEOAgent._add_keyword_naturally`. -/
def addKeywordNaturally (content keyword : Str) (count : ℕ) : Str :=
  let paras := pySplitOn (str "\n\n") content
  let out := paras.foldl (fun (acc : List Str × ℕ) para =>
    let pm := addKeywordPara keyword count acc.2 para
    (acc.1 ++ [pm.1], pm.2)) ([], 0)
  pyJoin (str "\n\n") out.1

/-- Embeds `SEOAgent._integrate_keywords_naturally` (target density
`int(word_count * 0.015)`, at least 1). -/
def integrateKeywordsNaturally (content : Str) (keywords : List Str) : Str :=
  if keywords.isEmpty then content
  else keywords.foldl (fun optimized keyword =>
    let word_count := wordCount optimized
    let current_count := pyCount (toLowerStr optimized) (toLowerStr keyword)
    let target_count := max 1 (pyInt ((word_count : ℚ) * (15 / 1000))).toNat
    if current_count < target_count then
      addKeywordNaturally optimized keyword (target_count - current_count)
    else optimized) content

/-- The long-line splitter of `_optimize_content_structure`. -/
def structureLongLine (line : Str) : List Str :=
  let sentences := pySplitOn (str ".") line
  let out := sentences.foldl (fun (acc : List Str × List Str) sentence =>
    let cur2 := acc.2 ++ [sentence]
    if 100 < wordCount (pyJoin (str " ") cur2) then
      (acc.1 ++ [pyStrip (pyJoin (str ".") cur2) ++ str "."], [])
    else (acc.1, cur2)) ([], [])
  if !out.2.isEmpty then out.1 ++ [pyStrip (pyJoin (str ".") out.2)] else out.1

/-- Embeds `SEOAgent._optimize_content_structure`. -/
def optimizeContentStructure (content : Str) : Str :=
  let lines := pySplitOn (str "\n") content
  let optimized := lines.foldl (fun acc line =>
    if pyStartsWith line (str "#") then acc ++ [line]
    else if !(pyStrip line).isEmpty && !(pyStartsWith line (str "#")) then
      (if 200 < wordCount line then acc ++ structureLongLine line else acc ++ [line])
    else acc ++ [line]) []
  pyJoin (str "\n") optimized

/-- Embeds `SEOAgent._generate_faq_section`. -/
def generateFaqSection (keywords : List Str) (req : Coordinator.Requirements) : Option Str := do
  let primary ← (match keywords with
    | [] => some (req.topic.getD [])
    | _ :: _ => keywords.get? 0)
  let faqs :=
    [ str "**What is " ++ primary ++ str "?**\n" ++ primary ++
        str " is a comprehensive approach that offers numerous benefits for organizations and individuals looking to improve their outcomes."
    , str "**How does " ++ primary ++ str " work?**\nThe implementation of " ++ primary ++
        str " involves several key steps and considerations that must be carefully planned and executed."
    , str "**What are the benefits of " ++ primary ++
        str "?**\nThe main benefits include improved efficiency, better results, cost-effectiveness, and competitive advantages in the marketplace."
    , str "**Is " ++ primary ++ str " suitable for beginners?**\nYes, " ++ primary ++
        str " can be adapted for users at all levels, from beginners to advanced practitioners." ]
  let base := str "## Frequently Asked Questions about " ++ primary ++ str "\n\n"
  pure (pyStrip ((faqs.take 3).foldl (fun acc faq => acc ++ faq ++ str "\n\n") base))

/-- Embeds `SEOAgent._generate_related_topics_section` (note: the section header
and boilerplate are produced even for an empty keyword list). -/
def generateRelatedTopicsSection (keywords : List Str) : Str :=
  let base := str "## Related Topics\n\n" ++
    str "Explore these related subjects to deepen your understanding:\n\n"
  let withKw := (keywords.take 4).foldl (fun acc keyword =>
    acc ++ (str "- " ++ keyword ++ str " Best Practices\n") ++
      (str "- " ++ keyword ++ str " Implementation Guide\n")) base
  withKw ++ str "\nThese topics provide additional insights and practical guidance for your journey."

/-- Embeds `SEOAgent._add_seo_elements`: FAQ only for `len(keywords) >= 2`; the
related-topics section whenever `'related topics'` is absent from the
(lowercased) content built so far. -/
def addSeoElements (content : Str) (keywords : List Str)
    (req : Coordinator.Requirements) : Option Str := do
  let c1 ←
    if 2 ≤ keywords.length then do
      let faq ← generateFaqSection keywords req
      pure (content ++ str "\n\n" ++ faq)
    else pure content
  if !(hasSubstr (toLowerStr c1) (str "related topics")) then
    pure (c1 ++ str "\n\n" ++ generateRelatedTopicsSection keywords)
  else pure c1

/-- Embeds `SEOAgent._optimize_content_seo`: the five optimisation stages. -/
def optimizeContentSeo (content : Str) (keywords : List Str)
    (req : Coordinator.Requirements) : Option Str := do
  let c1 ← optimizeTitleSeo content keywords
  let c2 ← optimizeHeadingsSeo c1 keywords
  let c3 := integrateKeywordsNaturally c2 keywords
  let c4 := optimizeContentStructure c3
  addSeoElements c4 keywords req

/-- The title extracted by `_generate_meta_tags` before band adjustment:
the first `'# '` line stripped, else the `topic` requirement, else
`"Untitled"`. -/
def extractedTitle (content : Str) (req : Coordinator.Requirements) : Str :=
  match (pySplitOn (str "\n") content).find? (fun line => pyStartsWith line (str "# ")) with
  | some title_line => pyStrip (title_line.drop 2)
  | none => req.topic.getD (str "Untitled")

/-- The description base of `_generate_meta_tags`: first non-heading,
non-blank paragraph with newlines flattened and stripped. -/
def cleanedFirstPara (content : Str) : Str :=
  let paragraphs := (pySplitOn (str "\n\n") content).filter
    (fun p => !(pyStrip p).isEmpty && !(pyStartsWith p (str "#")))
  pyStrip (pyReplace (paragraphs.headD []) (str "\n") (str " "))

/-- The dict returned by `_generate_meta_tags` (`og:title`, `og:description`
and `og:type` are spelt `ogTitle`, `ogDescription`, `ogType`). -/
structure MetaTags where
  title : Str
  description : Str
  keywords : Str
  ogTitle : Str
  ogDescription : Str
  ogType : Str
  robots : Str
  canonical : Str
deriving DecidableEq

/-- Embeds `SEOAgent._generate_meta_tags`. -/
def generateMetaTags (content : Str) (keywords : List Str)
    (req : Coordinator.Requirements) : Option MetaTags := do
  let title0 := extractedTitle content req
  let title ←
    if 60 < title0.length then pure (title0.take 57 ++ str "...")
    else if title0.length < 30 then do
      let primary ← (match keywords with
        | [] => some ([] : Str)
        | _ :: _ => keywords.get? 0)
      if !primary.isEmpty && !(hasSubstr title0 primary) then
        pure (primary ++ str " - " ++ title0)
      else pure title0
    else pure title0
  let desc0 := cleanedFirstPara content
  let description :=
    if 160 < desc0.length then desc0.take 157 ++ str "..."
    else if desc0.length < 120 then
      (if !keywords.isEmpty then
        desc0 ++ str " Learn about " ++ pyJoin (str ", ") (keywords.take 2) ++ str " and more."
       else desc0)
    else desc0
  let meta_keywords := if !keywords.isEmpty then pyJoin (str ", ") (keywords.take 5) else ([] : Str)
  pure
    { title := title
      description := description
      keywords := meta_keywords
      ogTitle := title
      ogDescription := description
      ogType := str "article"
      robots := str "index, follow"
      canonical := str "https://example.com/" ++ pyJoin (str "-") (pySplitWs (toLowerStr title)) }

/-- Embeds `SEOAgent._track_seo_optimizations`. -/
def trackSeoOptimizations (original optimized : Str) (keywords : List Str) : List Str :=
  let l1 := keywords.filterMap (fun keyword =>
    let oc := pyCount (toLowerStr original) (toLowerStr keyword)
    let nc := pyCount (toLowerStr optimized) (toLowerStr keyword)
    if oc < nc then
      some (str "Increased \x27" ++ keyword ++ str "\x27 mentions from " ++
        natRepr oc ++ str " to " ++ natRepr nc)
    else none)
  let oh := ((pySplitOn (str "\n") original).filter (fun l => pyStartsWith l (str "##"))).length
  let nh := ((pySplitOn (str "\n") optimized).filter (fun l => pyStartsWith l (str "##"))).length
  let l2 := if oh < nh then [str "Added SEO-optimized headings"] else []
  let l3 :=
    if hasSubstr (toLowerStr optimized) (str "frequently asked questions") &&
        !(hasSubstr (toLowerStr original) (str "frequently asked questions")) then
      [str "Added FAQ section for long-tail keyword targeting"]
    else []
  let l4 :=
    if hasSubstr (toLowerStr optimized) (str "related topics") &&
        !(hasSubstr (toLowerStr original) (str "related topics")) then
      [str "Added related topics section for internal linking"]
    else []
  let ot := ((pySplitOn (str "\n") original).find? (fun l => pyStartsWith l (str "# "))).getD []
  let nt := ((pySplitOn (str "\n") optimized).find? (fun l => pyStartsWith l (str "# "))).getD []
  let l5 := if ot ≠ nt then [str "Optimized title for primary keyword"] else []
  let all := l1 ++ l2 ++ l3 ++ l4 ++ l5
  if all.isEmpty then [str "Applied general SEO best practices"] else all

/-- Python `sum([...])` over booleans. -/
def b2n (b : Bool) : ℕ := if b then 1 else 0

/-- A value of `keyword_analysis[keyword]` in `_generate_keyword_report`
(`density` is rounded in the dict; `optimal_density` uses the raw value). -/
structure KwEntry where
  count : ℕ
  density : ℚ
  in_title : Bool
  in_headings : Bool
  in_first_paragraph : Bool
  optimal_density : Bool
deriving DecidableEq

/-- A value of `placement_analysis[keyword]`. -/
structure PlacementEntry where
  score : ℕ
  assessment : Str
deriving DecidableEq

/-- The dict returned by `_generate_keyword_report`. -/
structure KeywordReport where
  total_words : ℕ
  keyword_analysis : List (Str × KwEntry)
  density_analysis : List (Str × Str)
  placement_analysis : List (Str × PlacementEntry)
deriving DecidableEq

/-- The per-keyword body of `_generate_keyword_report`. -/
def kwReportEntry (content : Str) (total_words : ℕ) (keyword : Str) :
    KwEntry × Str × PlacementEntry :=
  let content_lower := toLowerStr content
  let kl := toLowerStr keyword
  let count := pyCount content_lower kl
  let density : ℚ := if 0 < total_words then (count : ℚ) / (total_words : ℚ) * 100 else 0
  let in_title := hasSubstr (content_lower.take 100) kl
  let in_headings := (pySplitOn (str "\n") content).any
    (fun line => pyStartsWith line (str "#") && hasSubstr (toLowerStr line) kl)
  let in_first_para := hasSubstr (content_lower.take 500) kl
  let entry : KwEntry :=
    { count := count
      density := pyRound2 density
      in_title := in_title
      in_headings := in_headings
      in_first_paragraph := in_first_para
      optimal_density := decide (1 ≤ density ∧ density ≤ 5 / 2) }
  let assessment :=
    if density < 1 / 2 then str "Too low - increase usage"
    else if 3 < density then str "Too high - reduce usage"
    else str "Optimal range"
  let pscore := b2n in_title + b2n in_headings + b2n in_first_para
  let passess :=
    if 2 ≤ pscore then str "Excellent"
    else if pscore = 1 then str "Good"
    else str "Needs improvement"
  (entry, assessment, ⟨pscore, passess⟩)

/-- Embeds `SEOAgent._generate_keyword_report`. -/
def generateKeywordReport (content : Str) (keywords : List Str) : KeywordReport :=
  let total_words := wordCount content
  keywords.foldl (fun rep keyword =>
    let e := kwReportEntry content total_words keyword
    { rep with
      keyword_analysis := rep.keyword_analysis ++ [(keyword, e.1)]
      density_analysis := rep.density_analysis ++ [(keyword, e.2.1)]
      placement_analysis := rep.placement_analysis ++ [(keyword, e.2.2)] })
    { total_words := total_words
      keyword_analysis := []
      density_analysis := []
      placement_analysis := [] }

/-- The dict returned by `SEOAgent.optimize_content` (its `editor_output`
parameter is unused by the Python body). -/
structure OptimizeOutput where
  original_content : Str
  optimized_content : Str
  target_keywords : List Str
  seo_analysis : Tools.SEOAnalysis
  final_seo_analysis : Tools.SEOAnalysis
  meta_tags : MetaTags
  optimizations_made : List Str
  seo_score : ℤ
  recommendations : List Str
  keyword_report : KeywordReport
deriving DecidableEq

/-- Embeds `SEOAgent.optimize_content`. -/
def optimizeContent (content : Str) (req : Coordinator.Requirements) :
    Option OptimizeOutput := do
  let target_keywords := req.seo_keywords.getD []
  let seo_analysis := Tools.seoAnalyzerRun content target_keywords
  let optimized ← optimizeContentSeo content target_keywords req
  let meta_tags ← generateMetaTags optimized target_keywords req
  let final_analysis := Tools.seoAnalyzerRun optimized target_keywords
  pure
    { original_content := content
      optimized_content := optimized
      target_keywords := target_keywords
      seo_analysis := seo_analysis
      final_seo_analysis := final_analysis
      meta_tags := meta_tags
      optimizations_made := trackSeoOptimizations content optimized target_keywords
      seo_score := final_analysis.seo_score
      recommendations := final_analysis.recommendations
      keyword_report := generateKeywordReport optimized target_keywords }

end SEO

/-! ## agents/researcher.py

`conduct_research` gathers its `search_results` from the web-search
collaborator (network I/O); the list of collaborator results is therefore a
parameter of the embedding.  A result dict carries the keys it happens to
have (`error` for the failure placeholder; `title`/`url`/`snippet` for real
hits), modelled as `Option` fields. -/

namespace Research

/-- One search-result dict from `WebSearchTool.run`. -/
structure SearchResult where
  error : Option Str := none
  title : Option Str := none
  url : Option Str := none
  snippet : Option Str := none
deriving DecidableEq

/-- Embeds `[r for r in search_results if 'error' not in r]`, the filter applied
by every derived-list helper. -/
def validResults (rs : List SearchResult) : List SearchResult :=
  rs.filter (fun r => r.error.isNone)

/-- Stable insertion: `x` goes before the first element whose key is not
larger, matching Python `sorted(..., reverse=True)` stability. -/
def insertDescQ (key : α → ℚ) (x : α) : List α → List α
  | [] => [x]
  | y :: ys => if key y ≤ key x then x :: y :: ys else y :: insertDescQ key x ys

/-- Stable descending sort by a rational key (Python
`sorted(..., key=key, reverse=True)` / `list.sort(..., reverse=True)`). -/
def sortDescQ (key : α → ℚ) : List α → List α
  | [] => []
  | x :: xs => insertDescQ key x (sortDescQ key xs)

/-- The `common_words` stop list of `_extract_main_themes`. -/
def commonWords : List Str :=
  [ str "the", str "and", str "or", str "but", str "in", str "on", str "at", str "to"
  , str "for", str "of", str "with", str "by", str "from", str "up", str "about"
  , str "into", str "through", str "during", str "before", str "after", str "above"
  , str "below", str "between", str "among", str "around", str "is", str "are"
  , str "was", str "were", str "be", str "been", str "being", str "have", str "has"
  , str "had", str "do", str "does", str "did", str "will", str "would", str "could"
  , str "should", str "may", str "might", str "must", str "can", str "this"
  , str "that", str "these", str "those", str "a", str "an" ]

/-- Embeds `ResearchAgent._extract_main_themes`. -/
def extractMainThemes (text : Str) : Str :=
  let words := pySplitWs (toLowerStr text)
  let freq := words.foldl (fun m word =>
    let clean_word := pyStripChars (str ".,!?\";:()[]\x7b\x7d") word
    if 3 < clean_word.length && !(commonWords.contains clean_word) then
      Tools.bumpFreq m clean_word
    else m) []
  let themes := ((sortDescQ (fun p => (p.2 : ℚ)) freq).take 5).map (fun p => p.1)
  if !themes.isEmpty then pyJoin (str ", ") themes
  else str "General information and insights"

/-- The domain lists of `_assess_single_source_credibility`. -/
def highCredDomains : List Str :=
  [str ".edu", str ".gov", str ".org", str "wikipedia", str "scholar.google"]

/-- Medium-credibility domain markers. -/
def medCredDomains : List Str :=
  [str ".com", str "news", str "journal", str "research"]

/-- Title quality indicators. -/
def qualityIndicators : List Str :=
  [str "research", str "study", str "analysis", str "report", str "official"]

/-- Embeds `ResearchAgent._assess_single_source_credibility`: base 0.5, plus one
domain bonus (`for..else`: 0.3 for a high-credibility domain, otherwise 0.1
for a medium one), plus 0.1 for one title indicator, capped at 1.0. -/
def assessSingleSourceCredibility (source : SearchResult) : ℚ :=
  let url := toLowerStr (source.url.getD [])
  let title := toLowerStr (source.title.getD [])
  let base : ℚ := 1 / 2
  let s1 :=
    if highCredDomains.any (fun d => hasSubstr url d) then base + 3 / 10
    else if medCredDomains.any (fun d => hasSubstr url d) then base + 1 / 10
    else base
  let s2 := if qualityIndicators.any (fun ind => hasSubstr title ind) then s1 + 1 / 10 else s1
  min 1 s2

/-- Embeds `ResearchAgent._get_credibility_assessment`. -/
def getCredibilityAssessment (score : ℚ) : Str :=
  if 8 / 10 ≤ score then str "High credibility - sources are trustworthy and authoritative"
  else if 6 / 10 ≤ score then str "Good credibility - sources are generally reliable"
  else if 4 / 10 ≤ score then str "Medium credibility - sources should be verified"
  else str "Low credibility - additional authoritative sources needed"

/-- The dict returned by `_assess_source_credibility` (the no-valid-sources
branch returns a dict without `total_sources`/`high_credibility_sources`). -/
structure CredAssessment where
  overall_score : ℚ
  total_sources : Option ℕ
  high_credibility_sources : Option ℕ
  assessment : Str
deriving DecidableEq

/-- Embeds `ResearchAgent._assess_source_credibility`. -/
def assessSourceCredibility (search_results : List SearchResult) : CredAssessment :=
  let valid := validResults search_results
  let credibility_scores := valid.map assessSingleSourceCredibility
  if credibility_scores.isEmpty then
    { overall_score := 0
      total_sources := none
      high_credibility_sources := none
      assessment := str "No valid sources found" }
  else
    let avg_score := credibility_scores.sum / (credibility_scores.length : ℚ)
    { overall_score := pyRound2 avg_score
      total_sources := some valid.length
      high_credibility_sources := some (credibility_scores.filter (fun s => 8 / 10 ≤ s)).length
      assessment := getCredibilityAssessment avg_score }

/-- Embeds `ResearchAgent._create_research_summary` (the `f"""..."""` template is
reproduced with its 8-space indentation, then stripped). -/
def createResearchSummary (topic : Str) (search_results : List SearchResult) : Str :=
  let valid := validResults search_results
  if valid.isEmpty then
    str "Limited research available on " ++ topic ++ str ". Recommend using authoritative sources."
  else
    let combined_text := pyJoin (str " ") ((valid.take 10).map (fun r => r.snippet.getD []))
    let confidence :=
      if 5 ≤ valid.length then str "High"
      else if 3 ≤ valid.length then str "Medium"
      else str "Low"
    pyStrip
      (str "\n        Research Summary: " ++ topic ++
       str "\n        \n        Overview: Based on analysis of " ++ natRepr valid.length ++
       str " sources, " ++ topic ++
       str " appears to be a significant subject with multiple dimensions worth exploring.\n        \n        Key Themes Identified:\n        - " ++
       extractMainThemes combined_text ++
       str "\n        \n        Current Status: The topic shows ongoing relevance with recent developments and continued interest from various stakeholders.\n        \n        Research Confidence: " ++
       confidence ++ str "\n        ")

/-- The verb markers of `_extract_key_facts`. -/
def factVerbs : List Str :=
  [ str "is", str "are", str "was", str "were", str "has", str "have"
  , str "can", str "will", str "according" ]

/-- Embeds `ResearchAgent._extract_key_facts` (the `break` at five facts exits only
the sentence loop, so later results may push the list past five before the
final `[:5]`). -/
def extractKeyFacts (search_results : List SearchResult) : List Str :=
  let valid := validResults search_results
  let facts := (valid.take 5).foldl (fun facts result =>
    let sentences := pySplitOn (str ".") (result.snippet.getD [])
    (sentences.foldl (fun (acc : List Str × Bool) sentence =>
      if acc.2 then acc
      else
        let st := pyStrip sentence
        if 50 < st.length &&
            factVerbs.any (fun w => hasSubstr (toLowerStr sentence) w) then
          let fs := acc.1 ++ [st]
          (fs, 5 ≤ fs.length)
        else acc) (facts, false)).1) []
  facts.take 5

/-- Python `s[a:b]` with integer endpoints already clamped to `a ≥ 0`. -/
def pySliceZ (s : Str) (a b : ℤ) : Str := (s.drop a.toNat).take (b - a).toNat

/-- Embeds `re.findall(r'\d+%', s)`: maximal digit runs directly followed by `%`
(fuel-structural scan, each step consumes at least one character). -/
def scanPercentF : ℕ → Str → List Str
  | 0, _ => []
  | fuel + 1, s =>
    match s with
    | [] => []
    | c :: t =>
      if c.isDigit then
        let run := s.takeWhile Char.isDigit
        match s.drop run.length with
        | '%' :: t2 => (run ++ ['%']) :: scanPercentF fuel t2
        | _ => scanPercentF fuel t
      else scanPercentF fuel t

/-- Embeds `re.findall(r'\$[\d,]+', s)`. -/
def scanDollarF : ℕ → Str → List Str
  | 0, _ => []
  | fuel + 1, s =>
    match s with
    | [] => []
    | c :: t =>
      if c = '$' then
        let run := t.takeWhile (fun d => d.isDigit || d = ',')
        if run.isEmpty then scanDollarF fuel t
        else ('$' :: run) :: scanDollarF fuel (t.drop run.length)
      else scanDollarF fuel t

/-- Does `w` match case-insensitively at the head of `s`? -/
def matchWordCI (w s : Str) : Bool := w.isPrefixOf (toLowerStr (s.take w.length))

/-- Embeds `re.findall(r'\d+\.\d+\s*(million|billion|thousand)', s, re.IGNORECASE)`:
`findall` with one group returns the group text as it appears in `s`. -/
def scanLargeNumF : ℕ → Str → List Str
  | 0, _ => []
  | fuel + 1, s =>
    match s with
    | [] => []
    | c :: t =>
      if c.isDigit then
        let d1 := s.takeWhile Char.isDigit
        let r1 := s.drop d1.length
        match r1 with
        | '.' :: r2 =>
          let d2 := r2.takeWhile Char.isDigit
          if d2.isEmpty then scanLargeNumF fuel t
          else
            let r3 := (r2.drop d2.length).dropWhile pyIsSpace
            match [str "million", str "billion", str "thousand"].find?
                (fun w => matchWordCI w r3) with
            | some w => (r3.take w.length) :: scanLargeNumF fuel (r3.drop w.length)
            | none => scanLargeNumF fuel t
        | _ => scanLargeNumF fuel t
      else scanLargeNumF fuel t

/-- Embeds `re.findall(r'\d+\s*(times|fold)', s, re.IGNORECASE)`. -/
def scanMultiplierF : ℕ → Str → List Str
  | 0, _ => []
  | fuel + 1, s =>
    match s with
    | [] => []
    | c :: t =>
      if c.isDigit then
        let d1 := s.takeWhile Char.isDigit
        let r1 := (s.drop d1.length).dropWhile pyIsSpace
        match [str "times", str "fold"].find? (fun w => matchWordCI w r1) with
        | some w => (r1.take w.length) :: scanMultiplierF fuel (r1.drop w.length)
        | none => scanMultiplierF fuel t
      else scanMultiplierF fuel t

/-- The `stat_patterns` match lists for one snippet, in pattern order. -/
def statPatternMatches (snippet : Str) : List (List Str) :=
  [ scanPercentF (snippet.length + 1) snippet
  , scanDollarF (snippet.length + 1) snippet
  , scanLargeNumF (snippet.length + 1) snippet
  , scanMultiplierF (snippet.length + 1) snippet ]

/-- Embeds `ResearchAgent._extract_statistics` (the `break` at three exits only the
match loop; context is `snippet[max(0, find-50):find+50]`). -/
def extractStatistics (search_results : List SearchResult) : List Str :=
  let valid := validResults search_results
  let stats := valid.foldl (fun stats result =>
    let snippet := result.snippet.getD []
    (statPatternMatches snippet).foldl (fun stats ms =>
      (ms.foldl (fun (acc : List Str × Bool) mtch =>
        if acc.2 then acc
        else
          let f := pyFind snippet mtch
          let context := pySliceZ snippet (max 0 (f - 50)) (f + 50)
          let s2 := acc.1 ++ [mtch ++ str ": " ++ pyStrip context]
          (s2, 3 ≤ s2.length)) (stats, false)).1) stats) []
  stats.take 3

/-- Embeds `ResearchAgent._extract_quotes` (odd-indexed parts of a `'"'` split are
the quoted texts; the `break` at three exits only the part loop). -/
def extractQuotes (search_results : List SearchResult) : List Str :=
  let valid := validResults search_results
  let quotes := valid.foldl (fun quotes result =>
    let snippet := result.snippet.getD []
    let title := result.title.getD []
    if hasSubstr snippet (str "\"") then
      let parts := pySplitOn (str "\"") snippet
      let odd := ((parts.enum).filter (fun p => p.1 % 2 = 1)).map (fun p => p.2)
      (odd.foldl (fun (acc : List Str × Bool) q =>
        if acc.2 then acc
        else if 20 < q.length then
          let q2 := acc.1 ++ [str "\"" ++ q ++ str "\" - " ++ title]
          (q2, 3 ≤ q2.length)
        else acc) (quotes, false)).1
    else quotes) []
  quotes.take 3

/-- One compiled source dict of `_compile_sources`. -/
structure SourceRef where
  title : Str
  url : Str
  snippet : Str
  credibility : ℚ
deriving DecidableEq

/-- Embeds `ResearchAgent._compile_sources`: first five valid results, then a
stable descending sort by credibility. -/
def compileSources (search_results : List SearchResult) : List SourceRef :=
  let valid := validResults search_results
  let sources := (valid.take 5).map (fun r =>
    { title := r.title.getD (str "Unknown Title")
      url := r.url.getD []
      snippet := (r.snippet.getD []).take 200 ++ str "..."
      credibility := assessSingleSourceCredibility r : SourceRef })
  sortDescQ (fun s => s.credibility) sources

/-- Embeds `ResearchAgent._suggest_content_outline`. -/
def suggestContentOutline (topic : Str) (req : Coordinator.Requirements) : List Str :=
  let content_type := req.content_type.getD (str "blog post")
  let ctl := toLowerStr content_type
  if [str "guide", str "tutorial", str "how-to"].contains ctl then
    [ str "Introduction to " ++ topic, str "Prerequisites and Requirements"
    , str "Step-by-Step Process", str "Best Practices"
    , str "Common Mistakes to Avoid", str "Advanced Tips"
    , str "Conclusion and Next Steps" ]
  else if [str "review", str "comparison"].contains ctl then
    [ str "Overview of " ++ topic, str "Methodology", str "Detailed Analysis"
    , str "Pros and Cons", str "Comparisons", str "Recommendations"
    , str "Final Verdict" ]
  else
    [ str "Introduction to " ++ topic, str "What is " ++ topic ++ str "?"
    , str "Key Benefits of " ++ topic, str "Challenges and Considerations"
    , str "Current Trends and Developments", str "Practical Applications"
    , str "Future Outlook", str "Conclusion" ]

/-- The recency markers of `_identify_research_gaps`. -/
def recentIndicators : List Str :=
  [str "2024", str "2023", str "recent", str "latest", str "new", str "current"]

/-- Embeds `ResearchAgent._identify_research_gaps` (its `topic` parameter is unused
by the Python body). -/
def identifyResearchGaps (search_results : List SearchResult) : List Str :=
  let valid := validResults search_results
  let g1 :=
    if valid.length < 3 then
      [str "Limited source diversity - recommend finding additional authoritative sources"]
    else []
  let joined := toLowerStr (pyJoin (str " ")
    (valid.map (fun r => r.snippet.getD [] ++ r.title.getD [])))
  let g2 :=
    if !(recentIndicators.any (fun ind => hasSubstr joined ind)) then
      [str "Lack of recent information - consider finding more current sources"]
    else []
  let combined := toLowerStr (pyJoin (str " ") (valid.map (fun r => r.snippet.getD [])))
  let g3 :=
    if !(hasSubstr combined (str "however")) && !(hasSubstr combined (str "but")) then
      [str "Limited perspective diversity - consider finding contrasting viewpoints"]
    else []
  g1 ++ g2 ++ g3

/-- The dict returned by `conduct_research`. -/
structure ResearchOutput where
  topic : Str
  research_summary : Str
  key_facts : List Str
  statistics : List Str
  expert_quotes : List Str
  source_references : List SourceRef
  content_outline : List Str
  research_gaps : List Str
  credibility_assessment : CredAssessment
deriving DecidableEq

/-- Embeds `ResearchAgent.conduct_research`, parameterised by the accumulated
`search_results` the web-search collaborator returned for the generated
queries. -/
def conductResearch (topic : Str) (req : Coordinator.Requirements)
    (search_results : List SearchResult) : ResearchOutput :=
  { topic := topic
    research_summary := createResearchSummary topic search_results
    key_facts := extractKeyFacts search_results
    statistics := extractStatistics search_results
    expert_quotes := extractQuotes search_results
    source_references := compileSources search_results
    content_outline := suggestContentOutline topic req
    research_gaps := identifyResearchGaps search_results
    credibility_assessment := assessSourceCredibility search_results }

end Research

/-- Concrete editor input used to settle claim C5: 100 words, a double
space inside `"in order  to"` (so the phrase is not yet a clarity-rewrite
target), and a final `"c!"`. -/
def c5input : Str :=
  str "Xx in order  to " ++ (List.replicate 95 (str "b ")).flatten ++ str "c!"

/-! ## Helper lemmas -/

theorem findSub_le (sub : Str) :
    ∀ s n, findSub sub s = some n → n + sub.length ≤ s.length := by
  intro s
  induction s with
  | nil =>
    intro n h
    simp only [findSub] at h
    by_cases hs : sub.isEmpty
    · simp [hs] at h
      subst h
      simp [List.isEmpty_iff.mp hs]
    · simp [hs] at h
  | cons c t ih =>
    intro n h
    simp only [findSub] at h
    by_cases hp : sub.isPrefixOf (c :: t)
    · simp [hp] at h
      subst h
      have := List.IsPrefix.length_le (List.isPrefixOf_iff_prefix.mp hp)
      simpa using this
    · simp [hp] at h
      obtain ⟨m, hm, rfl⟩ := h
      have := ih m hm
      simp only [List.length_cons]
      omega

theorem findSub_decomp (sub : Str) :
    ∀ (s : Str) (n : ℕ), findSub sub s = some n →
      s.take n ++ sub ++ s.drop (n + sub.length) = s := by
  intro s
  induction s with
  | nil =>
    intro n h
    simp only [findSub] at h
    by_cases hs : sub.isEmpty
    · simp [hs] at h
      subst h
      simp [List.isEmpty_iff.mp hs]
    · simp [hs] at h
  | cons c t ih =>
    intro n h
    simp only [findSub] at h
    by_cases hp : sub.isPrefixOf (c :: t)
    · simp [hp] at h
      subst h
      obtain ⟨u, hu⟩ := List.isPrefixOf_iff_prefix.mp hp
      simp only [List.take_zero, List.nil_append, Nat.zero_add]
      rw [← hu, List.drop_left]
    · simp [hp] at h
      obtain ⟨m, hm, rfl⟩ := h
      have := ih m hm
      simp only [List.take_succ_cons, List.cons_append]
      have harith : m + 1 + sub.length = (m + sub.length) + 1 := by omega
      rw [harith]
      simp only [List.drop_succ_cons]
      rw [this]

theorem pyJoin_cons (sep a : Str) (l : List Str) (h : l ≠ []) :
    pyJoin sep (a :: l) = a ++ sep ++ pyJoin sep l := by
  cases l with
  | nil => exact absurd rfl h
  | cons b t =>
    simp [pyJoin, List.intercalate, List.intersperse]

theorem pySplitOnF_ne_nil (fuel : ℕ) (sep s : Str) : pySplitOnF fuel sep s ≠ [] := by
  cases fuel with
  | zero => simp [pySplitOnF]
  | succ f =>
    simp only [pySplitOnF]
    cases findSub sep s <;> simp

theorem pySplitOnF_join (sep : Str) (hsep : ¬sep.isEmpty) :
    ∀ (fuel : ℕ) (s : Str), s.length < fuel →
      pyJoin sep (pySplitOnF fuel sep s) = s := by
  intro fuel
  induction fuel with
  | zero => intro s h; omega
  | succ f ih =>
    intro s h
    simp only [pySplitOnF]
    cases hf : findSub sep s with
    | none => simp [pyJoin, List.intercalate, List.intersperse]
    | some n =>
      have hlen := findSub_le sep s n hf
      have hsl : sep.length ≠ 0 := by
        simpa using fun hz => hsep (List.isEmpty_iff.mpr hz)
      rw [pyJoin_cons sep _ _ (pySplitOnF_ne_nil f sep _)]
      rw [ih (s.drop (n + sep.length)) (by simp only [List.length_drop]; omega)]
      exact findSub_decomp sep s n hf

theorem pyJoin_split (sep s : Str) : pyJoin sep (pySplitOn sep s) = s := by
  by_cases hsep : sep.isEmpty
  · simp [pySplitOn, hsep, pyJoin, List.intercalate, List.intersperse]
  · simp only [pySplitOn, hsep, if_false, Bool.false_eq_true]
    exact pySplitOnF_join sep hsep (s.length + 1) s (by omega)

theorem pyStartsWith_append (p rest : Str) : pyStartsWith (p ++ rest) p = true := by
  simp [pyStartsWith, List.isPrefixOf_iff_prefix]

theorem roundHalfEven_ge (m : ℤ) (x : ℚ) (h : (m : ℚ) ≤ x) : m ≤ roundHalfEven x := by
  have hfloor : m ≤ ⌊x⌋ := Int.le_floor.mpr h
  simp only [roundHalfEven]
  split_ifs <;> omega

theorem pyRound2_ge_half (q : ℚ) (h : 1 / 2 ≤ q) : 1 / 2 ≤ pyRound2 q := by
  have h50 : (50 : ℚ) ≤ q * 100 := by linarith
  have hr : (50 : ℤ) ≤ roundHalfEven (q * 100) := by
    apply roundHalfEven_ge
    exact_mod_cast h50
  simp only [pyRound2]
  have : (50 : ℚ) ≤ (roundHalfEven (q * 100) : ℚ) := by exact_mod_cast hr
  linarith

theorem sum_ge_half_len (l : List ℚ) (h : ∀ x ∈ l, 1 / 2 ≤ x) :
    (l.length : ℚ) * (1 / 2) ≤ l.sum := by
  induction l with
  | nil => simp
  | cons a t ih =>
    have ha := h a (by simp)
    have ht := ih (fun x hx => h x (by simp [hx]))
    simp only [List.length_cons, List.sum_cons, Nat.cast_succ]
    linarith

theorem half_le_avg (l : List ℚ) (h : ∀ x ∈ l, 1 / 2 ≤ x) (hne : l ≠ []) :
    1 / 2 ≤ l.sum / (l.length : ℚ) := by
  have hlen : (0 : ℚ) < (l.length : ℚ) := by
    have : 0 < l.length := List.length_pos.mpr hne
    exact_mod_cast this
  rw [le_div_iff₀ hlen]
  have := sum_ge_half_len l h
  linarith

theorem rewriteFirstTitle_nil : ∀ ls : List Str, SEO.rewriteFirstTitle [] ls = some ls := by
  intro ls
  induction ls with
  | nil => simp [SEO.rewriteFirstTitle]
  | cons l t ih =>
    simp only [SEO.rewriteFirstTitle]
    by_cases hl : pyStartsWith l (str "# ")
    · simp [hl, SEO.optimizeTitleLine]
    · simp [hl, ih]

theorem optimizeTitleSeo_nil (c : Str) : SEO.optimizeTitleSeo c [] = some c := by
  simp [SEO.optimizeTitleSeo, rewriteFirstTitle_nil, pyJoin_split]

theorem optimizeHeadingsSeo_nil (c : Str) : SEO.optimizeHeadingsSeo c [] = some c := by
  simp [SEO.optimizeHeadingsSeo]

theorem integrateKeywordsNaturally_nil (c : Str) :
    SEO.integrateKeywordsNaturally c [] = c := by
  simp [SEO.integrateKeywordsNaturally]

theorem addSeoElements_nil (c : Str) (req : Coordinator.Requirements) :
    SEO.addSeoElements c [] req =
      some (if hasSubstr (toLowerStr c) (str "related topics") then c
            else c ++ str "\n\n" ++ SEO.generateRelatedTopicsSection []) := by
  by_cases hrt : hasSubstr (toLowerStr c) (str "related topics") <;>
    simp [SEO.addSeoElements, hrt]

theorem optimizeContentSeo_nil (c : Str) (req : Coordinator.Requirements) :
    SEO.optimizeContentSeo c [] req =
      some (if hasSubstr (toLowerStr (SEO.optimizeContentStructure c)) (str "related topics") then
              SEO.optimizeContentStructure c
            else SEO.optimizeContentStructure c ++ str "\n\n" ++
              SEO.generateRelatedTopicsSection []) := by
  simp [SEO.optimizeContentSeo, optimizeTitleSeo_nil, optimizeHeadingsSeo_nil,
    integrateKeywordsNaturally_nil, addSeoElements_nil]

theorem generateMetaTags_nil_isSome (c : Str) (req : Coordinator.Requirements) :
    ∃ mt, SEO.generateMetaTags c [] req = some mt := by
  simp only [SEO.generateMetaTags]
  split_ifs <;> simp

theorem trackImprovements_self (x : Str) :
    Editor.trackImprovements x x = [str "Made minor improvements to clarity and readability"] := by
  simp [Editor.trackImprovements]

/-! ## Claim theorems -/

/-- Claim C7: the Content Validator's `sentence_count` equals the number of
segments of the `[.!?]+` run split minus one; on the empty string `run`
returns `word_count = 0` and `sentence_count = 0` without raising, with
`quality_score` (here 45) clamped to be at least 0 — and the clamp holds
for every input. -/
theorem C7_sentence_count_and_empty_input :
    (∀ C : Str, (Tools.contentValidatorRun C).sentence_count =
        ((splitRuns sentenceDelim C).length : ℤ) - 1) ∧
    ((Tools.contentValidatorRun (str "")).word_count = 0 ∧
      (Tools.contentValidatorRun (str "")).sentence_count = 0 ∧
      (Tools.contentValidatorRun (str "")).quality_score = 45) ∧
    (∀ C : Str, 0 ≤ (Tools.contentValidatorRun C).quality_score) := by
  refine ⟨fun C => rfl, by decide, fun C => ?_⟩
  simp only [Tools.contentValidatorRun, Tools.calculateQualityScore]
  exact le_max_left 0 _

/-- Claim C8: for every requirements mapping, `create_content_plan` yields
`quality_criteria` with `minimum_word_count = 0.9 × W` and
`maximum_word_count = 1.1 × W`, where `W` is the `word_count` requirement
defaulting to 1000 (the function is total: it always succeeds). -/
theorem C8_plan_word_count_band (req : Coordinator.Requirements) :
    (Coordinator.createContentPlan req).quality_criteria.minimum_word_count =
      (9 / 10 : ℚ) * req.word_count.getD 1000 ∧
    (Coordinator.createContentPlan req).quality_criteria.maximum_word_count =
      (11 / 10 : ℚ) * req.word_count.getD 1000 := by
  constructor <;>
    simp [Coordinator.createContentPlan, Coordinator.defineQualityCriteria, mul_comm]

/-- Claim C9: the keyword report's placement fields are prefix-window
substring checks on the whole document: `in_title` iff the keyword occurs
(case-insensitively) in the first 100 characters, `in_first_paragraph` iff
in the first 500, and the placement score is the number of true flags,
hence at most 3. -/
theorem C9_keyword_placement_is_prefix_window (content K : Str) :
    ∃ e p, (SEO.generateKeywordReport content [K]).keyword_analysis.lookup K = some e ∧
      (SEO.generateKeywordReport content [K]).placement_analysis.lookup K = some p ∧
      e.in_title = hasSubstr ((toLowerStr content).take 100) (toLowerStr K) ∧
      e.in_first_paragraph = hasSubstr ((toLowerStr content).take 500) (toLowerStr K) ∧
      p.score = SEO.b2n e.in_title + SEO.b2n e.in_headings + SEO.b2n e.in_first_paragraph ∧
      p.score ≤ 3 := by
  refine ⟨(SEO.kwReportEntry content (wordCount content) K).1,
          (SEO.kwReportEntry content (wordCount content) K).2.2, ?_, ?_, rfl, rfl, rfl, ?_⟩
  · simp [SEO.generateKeywordReport, List.lookup]
  · simp [SEO.generateKeywordReport, List.lookup]
  · have hb : ∀ b : Bool, SEO.b2n b ≤ 1 := fun b => by cases b <;> simp [SEO.b2n]
    have h1 := hb (SEO.kwReportEntry content (wordCount content) K).1.in_title
    have h2 := hb (SEO.kwReportEntry content (wordCount content) K).1.in_headings
    have h3 := hb (SEO.kwReportEntry content (wordCount content) K).1.in_first_paragraph
    have hs : (SEO.kwReportEntry content (wordCount content) K).2.2.score =
        SEO.b2n (SEO.kwReportEntry content (wordCount content) K).1.in_title +
        SEO.b2n (SEO.kwReportEntry content (wordCount content) K).1.in_headings +
        SEO.b2n (SEO.kwReportEntry content (wordCount content) K).1.in_first_paragraph := rfl
    omega

/-- Claim C2, counterexample: on empty content the keyword-density dict has
NO entry for the keyword (the `total_words > 0` guard skips the
assignment), rather than an entry equal to 0; and on non-empty content the
stored value is rounded to two decimals, so it differs from the exact
`100 × occurrences / word_count` (here `33.33 ≠ 100/3`). -/
theorem C2_counterexample :
    (Tools.analyzeKeywords (str "") [str "a"]).keyword_density.lookup (str "a") = none ∧
    (Tools.analyzeKeywords (str "aa b c") [str "aa"]).keyword_density.lookup (str "aa") =
      some (3333 / 100) ∧
    (3333 / 100 : ℚ) ≠ 100 * 1 / 3 := by decide

/-- Claim C2 (amended): for word_count(C) > 0 the SEO Analyzer stores
`keyword_density[K] = round(100 × occurrences / word_count, 2)` (occurrences
counted case-insensitively and non-overlapping); for word_count(C) = 0 the
key is absent (see the counterexample). -/
theorem C2_amended_keyword_density (C K : Str) (h : 0 < wordCount C) :
    (Tools.analyzeKeywords C [K]).keyword_density.lookup K =
      some (pyRound2 ((pyCount (toLowerStr C) (toLowerStr K) : ℚ) / (wordCount C : ℚ) * 100)) := by
  simp [Tools.analyzeKeywords, h, List.lookup]

/-- Witness for C2 (amended) at concrete content and keyword. -/
theorem C2_amended_witness :
    0 < wordCount (str "one two three four") ∧
    (Tools.analyzeKeywords (str "one two three four") [str "two"]).keyword_density.lookup
        (str "two") =
      some (pyRound2 ((pyCount (toLowerStr (str "one two three four"))
        (toLowerStr (str "two")) : ℚ) / (wordCount (str "one two three four") : ℚ) * 100)) :=
  ⟨by decide, C2_amended_keyword_density (str "one two three four") (str "two") (by decide)⟩

/-- Claim C1, counterexample: content with no conclusion marker in its last
200 characters gets `checks.structure.has_conclusion = False`, yet
`overall_score` is the maximal 100 (with a 10-word target band met), so the
missing conclusion does NOT lower the score: the `structure` check dict has
no `passed` key and `check.get('passed', True)` always counts it as
passed. -/
theorem C1_counterexample :
    (Coordinator.validateContentQuality
        (str "alpha beta gamma delta epsilon zeta eta theta iota kappa")
        ⟨some (Coordinator.createContentPlan { word_count := some 10 }).quality_criteria⟩
      ).checks.structure_.has_conclusion = false ∧
    (Coordinator.validateContentQuality
        (str "alpha beta gamma delta epsilon zeta eta theta iota kappa")
        ⟨some (Coordinator.createContentPlan { word_count := some 10 }).quality_criteria⟩
      ).overall_score = 100 := by decide

/-- Claim C1 (amended): `overall_score = 100 × passed_checks/total_checks`
and `passed ↔ overall_score ≥ 80` hold, and content without a conclusion
marker in its last 200 lower-cased characters gets
`has_conclusion = False`; but because the `structure` check carries no
`passed` key it is always counted as passed, so the score is determined by
the word-count check alone (100 when it passes, 50 otherwise) and
`has_conclusion` never lowers it. -/
theorem C1_amended_validate_score (content : Str) (plan : Coordinator.ValidatePlan) :
    (Coordinator.validateContentQuality content plan).overall_score =
      ((((Coordinator.checksPassedFlags
            (Coordinator.validateContentQuality content plan).checks).filter
          (fun f => f.getD true)).length : ℚ) /
        ((Coordinator.checksPassedFlags
            (Coordinator.validateContentQuality content plan).checks).length : ℚ)) * 100 ∧
    ((Coordinator.validateContentQuality content plan).passed ↔
      (80 : ℚ) ≤ (Coordinator.validateContentQuality content plan).overall_score) ∧
    ((Coordinator.conclusionMarkers.all
        (fun k => !hasSubstr (pyTakeLast 200 (toLowerStr content)) k)) = true →
      (Coordinator.validateContentQuality content plan).checks.structure_.has_conclusion = false) ∧
    (Coordinator.validateContentQuality content plan).overall_score =
      (if (Coordinator.validateContentQuality content plan).checks.word_count.passed
        then 100 else 50) := by
  have hov : ∀ c : Coordinator.Checks, Coordinator.overallScore c =
      ((((Coordinator.checksPassedFlags c).filter (fun f => f.getD true)).length : ℚ) /
        ((Coordinator.checksPassedFlags c).length : ℚ)) * 100 := by
    intro c
    by_cases hb : c.word_count.passed <;>
      simp [Coordinator.overallScore, Coordinator.checksPassedFlags, hb]
  have hcase : ∀ c : Coordinator.Checks, Coordinator.overallScore c =
      (if c.word_count.passed then 100 else 50) := by
    intro c
    by_cases hb : c.word_count.passed <;>
      · simp [Coordinator.overallScore, Coordinator.checksPassedFlags, hb, List.filter]
        all_goals norm_num
  have hpf : ∀ c : Coordinator.Checks,
      (Coordinator.passedFlag c = true ↔ (80 : ℚ) ≤ Coordinator.overallScore c) := by
    intro c
    simp [Coordinator.passedFlag, Coordinator.checksPassedFlags]
  refine ⟨hov _, hpf _, ?_, hcase _⟩
  intro hall
  simp only [List.all_eq_true] at hall
  simp only [Coordinator.validateContentQuality]
  rw [List.any_eq_false]
  intro k hk
  have := hall k hk
  simpa using this

/-- Witness for C1 (amended): a marker-free content where the amended
no-conclusion implication fires. -/
theorem C1_amended_witness :
    (Coordinator.conclusionMarkers.all
      (fun k => !hasSubstr (pyTakeLast 200 (toLowerStr
        (str "alpha beta gamma delta epsilon zeta eta theta iota kappa"))) k)) = true ∧
    (Coordinator.validateContentQuality
        (str "alpha beta gamma delta epsilon zeta eta theta iota kappa")
        ⟨none⟩).checks.structure_.has_conclusion = false :=
  ⟨by decide,
    (C1_amended_validate_score
      (str "alpha beta gamma delta epsilon zeta eta theta iota kappa") ⟨none⟩).2.2.1 (by decide)⟩

/-- Claim C10: every per-source credibility score lies in `[0.5, 1.0]`
(base 0.5 plus non-negative domain/title bonuses, capped at 1.0), and
whenever at least one valid source exists the overall credibility score is
at least 0.5. -/
theorem C10_credibility_bounds :
    (∀ s : Research.SearchResult,
      1 / 2 ≤ Research.assessSingleSourceCredibility s ∧
        Research.assessSingleSourceCredibility s ≤ 1) ∧
    (∀ rs : List Research.SearchResult, Research.validResults rs ≠ [] →
      1 / 2 ≤ (Research.assessSourceCredibility rs).overall_score) := by
  have single : ∀ s : Research.SearchResult,
      1 / 2 ≤ Research.assessSingleSourceCredibility s ∧
        Research.assessSingleSourceCredibility s ≤ 1 := by
    intro s
    simp only [Research.assessSingleSourceCredibility]
    constructor
    · apply le_min (by norm_num)
      split_ifs <;> norm_num
    · exact min_le_left _ _
  refine ⟨single, ?_⟩
  intro rs hne
  simp only [Research.assessSourceCredibility]
  have hmap : (Research.validResults rs).map Research.assessSingleSourceCredibility ≠ [] := by
    simpa using hne
  rw [if_neg (by simpa [List.isEmpty_iff] using hmap)]
  apply pyRound2_ge_half
  apply half_le_avg
  · intro x hx
    obtain ⟨r, _, rfl⟩ := List.mem_map.mp hx
    exact (single r).1
  · exact hmap

/-- Witness for C10 at a one-element result list (a record with no
`error` key). -/
theorem C10_witness :
    Research.validResults [({} : Research.SearchResult)] ≠ [] ∧
    1 / 2 ≤ (Research.assessSourceCredibility [({} : Research.SearchResult)]).overall_score :=
  ⟨by decide, C10_credibility_bounds.2 [({} : Research.SearchResult)] (by decide)⟩

/-- Claim C6: when every collaborator search result carries the `error`
key, the research stage excludes them all and returns a summary beginning
"Limited research available", empty key facts / statistics / quotes /
source references, and a credibility assessment with `overall_score = 0`. -/
theorem C6_all_error_results (topic : Str) (req : Coordinator.Requirements)
    (results : List Research.SearchResult) (h : ∀ r ∈ results, r.error.isSome) :
    pyStartsWith (Research.conductResearch topic req results).research_summary
        (str "Limited research available") = true ∧
    (Research.conductResearch topic req results).key_facts = [] ∧
    (Research.conductResearch topic req results).statistics = [] ∧
    (Research.conductResearch topic req results).expert_quotes = [] ∧
    (Research.conductResearch topic req results).source_references = [] ∧
    (Research.conductResearch topic req results).credibility_assessment.overall_score = 0 := by
  have hvalid : Research.validResults results = [] := by
    simp only [Research.validResults, List.filter_eq_nil_iff]
    intro r hr
    have := h r hr
    simp [Option.isNone_iff_eq_none, Option.isSome_iff_exists] at this ⊢
    obtain ⟨v, hv⟩ := this
    simp [hv]
  refine ⟨?_, ?_, ?_, ?_, ?_, ?_⟩
  · simp only [Research.conductResearch, Research.createResearchSummary, hvalid,
      List.isEmpty_nil, if_true]
    have hsplit : str "Limited research available on " =
        str "Limited research available" ++ str " on " := by decide
    rw [hsplit, List.append_assoc, List.append_assoc]
    exact pyStartsWith_append _ _
  · simp [Research.conductResearch, Research.extractKeyFacts, hvalid]
  · simp [Research.conductResearch, Research.extractStatistics, hvalid]
  · simp [Research.conductResearch, Research.extractQuotes, hvalid]
  · simp [Research.conductResearch, Research.compileSources, hvalid, Research.sortDescQ]
  · simp [Research.conductResearch, Research.assessSourceCredibility, hvalid]

/-- Witness for C6 at a concrete all-error result list. -/
theorem C6_witness :
    (∀ r ∈ [({ error := some (str "Search failed: timeout") } : Research.SearchResult)],
      r.error.isSome) ∧
    (pyStartsWith (Research.conductResearch (str "AI") {}
        [{ error := some (str "Search failed: timeout") }]).research_summary
        (str "Limited research available") = true ∧
      (Research.conductResearch (str "AI") {}
        [{ error := some (str "Search failed: timeout") }]).key_facts = [] ∧
      (Research.conductResearch (str "AI") {}
        [{ error := some (str "Search failed: timeout") }]).statistics = [] ∧
      (Research.conductResearch (str "AI") {}
        [{ error := some (str "Search failed: timeout") }]).expert_quotes = [] ∧
      (Research.conductResearch (str "AI") {}
        [{ error := some (str "Search failed: timeout") }]).source_references = [] ∧
      (Research.conductResearch (str "AI") {}
        [{ error := some (str "Search failed: timeout") }]).credibility_assessment.overall_score
        = 0) :=
  ⟨by decide, C6_all_error_results (str "AI") {} _ (by decide)⟩

/-- Claim C3, counterexample: when the extracted title is shorter than 30
characters, the primary keyword is prefixed WITHOUT re-truncation, so a
58-character keyword yields a 63-character meta title, breaking the claimed
`length(title) ≤ 60` invariant in exactly the padding case the claim
includes. -/
theorem C3_counterexample :
    (SEO.generateMetaTags (str "# Hi") [List.replicate 58 'a']
        ({} : Coordinator.Requirements)).map (fun mt => mt.title.length) = some 63 ∧
    ¬(63 ≤ 60) := by decide

/-- Claim C3 (amended): the meta-tag length bounds hold for the truncation
branches: when the extracted title is at least 30 characters long the final
title is at most 60 characters (ellipsis-truncated when over 60), and when
the cleaned first paragraph is at least 120 characters long the final
description is at most 160 characters; the keyword-padding branches for a
title under 30 or a description under 120 characters can exceed the limits
(see the counterexample). -/
theorem C3_amended_meta_tag_lengths (content : Str) (kws : List Str)
    (req : Coordinator.Requirements)
    (h1 : 30 ≤ (SEO.extractedTitle content req).length)
    (h2 : 120 ≤ (SEO.cleanedFirstPara content).length) :
    ∃ mt, SEO.generateMetaTags content kws req = some mt ∧
      mt.title.length ≤ 60 ∧ mt.description.length ≤ 160 := by
  have hdots : (str "...").length = 3 := rfl
  have hn30 : ¬((SEO.extractedTitle content req).length < 30) := by omega
  have hn120 : ¬((SEO.cleanedFirstPara content).length < 120) := by omega
  have hex : ∃ mt, SEO.generateMetaTags content kws req = some mt := by
    simp only [SEO.generateMetaTags, hn30, if_false]
    split_ifs <;> simp
  obtain ⟨mt, hmt⟩ := hex
  refine ⟨mt, hmt, ?_, ?_⟩ <;>
  · by_cases h60 : 60 < (SEO.extractedTitle content req).length <;>
      by_cases h160 : 160 < (SEO.cleanedFirstPara content).length <;>
      · simp [SEO.generateMetaTags, h60, h160, hn30, hn120] at hmt
        subst hmt
        simp [List.length_append, List.length_take, hdots]
        all_goals omega

/-- Witness for C3 (amended): a 35-character title line and a
130-character first paragraph. -/
theorem C3_amended_witness :
    30 ≤ (SEO.extractedTitle
        (str "# " ++ List.replicate 35 'x' ++ str "\n\n" ++ List.replicate 130 'y')
        ({} : Coordinator.Requirements)).length ∧
    120 ≤ (SEO.cleanedFirstPara
        (str "# " ++ List.replicate 35 'x' ++ str "\n\n" ++ List.replicate 130 'y')).length ∧
    (∃ mt, SEO.generateMetaTags
        (str "# " ++ List.replicate 35 'x' ++ str "\n\n" ++ List.replicate 130 'y') []
        ({} : Coordinator.Requirements) = some mt ∧
      mt.title.length ≤ 60 ∧ mt.description.length ≤ 160) :=
  ⟨by decide, by decide,
    C3_amended_meta_tag_lengths _ [] ({} : Coordinator.Requirements) (by decide) (by decide)⟩

/-- Claim C4, counterexample: with `seo_keywords = []` the Related Topics
section IS appended to content that lacks it — the header
`"## Related Topics"` appears in the optimized content of `"Hello world"`
although the claim says the section is omitted. -/
theorem C4_counterexample :
    (SEO.optimizeContent (str "Hello world")
        { seo_keywords := some [] }).map
      (fun out => hasSubstr out.optimized_content (str "## Related Topics")) = some true ∧
    hasSubstr (str "Hello world") (str "## Related Topics") = false := by decide

/-- Claim C4 (amended): with `seo_keywords = []`, `optimize_content`
completes without division-by-zero or empty-list indexing errors (all
`Option`-modelled indexing sites return `some`), and the FAQ section is
never appended — the only appended text is the Related Topics section
(header plus boilerplate, with zero keyword bullets), added exactly when
`'related topics'` does not already occur in the structured content. -/
theorem C4_amended_empty_keywords (content : Str) (req : Coordinator.Requirements)
    (h : req.seo_keywords.getD [] = []) :
    ∃ out, SEO.optimizeContent content req = some out ∧
      out.optimized_content =
        (if hasSubstr (toLowerStr (SEO.optimizeContentStructure content))
            (str "related topics") then
          SEO.optimizeContentStructure content
        else SEO.optimizeContentStructure content ++ str "\n\n" ++
          SEO.generateRelatedTopicsSection []) ∧
      hasSubstr (str "\n\n" ++ SEO.generateRelatedTopicsSection [])
        (str "## Related Topics") = true := by
  obtain ⟨mt, hmt⟩ := generateMetaTags_nil_isSome
    (if hasSubstr (toLowerStr (SEO.optimizeContentStructure content))
        (str "related topics") then
      SEO.optimizeContentStructure content
    else SEO.optimizeContentStructure content ++ str "\n\n" ++
      SEO.generateRelatedTopicsSection []) req
  have hex : ∃ out, SEO.optimizeContent content req = some out := by
    simp only [SEO.optimizeContent, h, optimizeContentSeo_nil, Option.bind_eq_bind,
      Option.some_bind, hmt]
    exact ⟨_, rfl⟩
  obtain ⟨out, hout⟩ := hex
  refine ⟨out, hout, ?_, by decide⟩
  simp only [SEO.optimizeContent, h, optimizeContentSeo_nil, Option.bind_eq_bind,
    Option.some_bind, hmt, Option.pure_def, Option.some.injEq] at hout
  subst hout
  rfl

/-- Witness for C4 (amended) at concrete content and an explicit empty
keyword list. -/
theorem C4_amended_witness :
    ({ seo_keywords := some [] } : Coordinator.Requirements).seo_keywords.getD [] = [] ∧
    (∃ out, SEO.optimizeContent (str "Hello world")
        ({ seo_keywords := some [] } : Coordinator.Requirements) = some out ∧
      out.optimized_content =
        (if hasSubstr (toLowerStr (SEO.optimizeContentStructure (str "Hello world")))
            (str "related topics") then
          SEO.optimizeContentStructure (str "Hello world")
        else SEO.optimizeContentStructure (str "Hello world") ++ str "\n\n" ++
          SEO.generateRelatedTopicsSection []) ∧
      hasSubstr (str "\n\n" ++ SEO.generateRelatedTopicsSection [])
        (str "## Related Topics") = true) :=
  ⟨by decide, C4_amended_empty_keywords (str "Hello world") _ (by decide)⟩

/-- Claim C5, counterexample: re-running `edit_content` on the first run's
`edited_content` DECREASES `final_quality_score` (65 to 50 here): the first
pass's double-space fix creates the phrase `"in order to"`, which the
second pass's clarity replacement removes, dropping the word count from 100
to 98 and across the 100-word scoring bracket; the second pass also
reports a genuine improvements_made entry rather than zero. -/
theorem C5_counterexample :
    (Editor.editContent (Editor.editContent c5input {}).edited_content {}).final_quality_score <
      (Editor.editContent c5input {}).final_quality_score ∧
    (Editor.editContent (Editor.editContent c5input {}).edited_content {}).improvements_made =
      [str "Reduced word count by 2 words for better conciseness"] := by decide

/-- Claim C5 (amended): when the second editing pass leaves the content
textually unchanged (i.e. the first pass's output is a fixed point of
`_improve_content`), the second `edit_content` run has exactly the same
`final_quality_score` and its `improvements_made` is the single generic
fallback entry; without that hypothesis the score can regress and real
entries appear (see the counterexample). -/
theorem C5_amended_fixed_point (content : Str) (req : Coordinator.Requirements)
    (h : Editor.improveContent (Editor.editContent content req).edited_content =
      (Editor.editContent content req).edited_content) :
    (Editor.editContent (Editor.editContent content req).edited_content req).final_quality_score =
      (Editor.editContent content req).final_quality_score ∧
    (Editor.editContent (Editor.editContent content req).edited_content req).improvements_made =
      [str "Made minor improvements to clarity and readability"] := by
  simp only [Editor.editContent] at h ⊢
  constructor
  · simp only [Editor.calculateFinalQualityScore, h]
  · rw [h, trackImprovements_self]

/-- Witness for C5 (amended): `"Hello world!"` is already normalized, so
the first pass's output is a fixed point of the improvement pipeline. -/
theorem C5_amended_witness :
    Editor.improveContent (Editor.editContent (str "Hello world!") {}).edited_content =
      (Editor.editContent (str "Hello world!") {}).edited_content ∧
    ((Editor.editContent (Editor.editContent (str "Hello world!") {}).edited_content
        {}).final_quality_score =
      (Editor.editContent (str "Hello world!") {}).final_quality_score ∧
    (Editor.editContent (Editor.editContent (str "Hello world!") {}).edited_content
        {}).improvements_made =
      [str "Made minor improvements to clarity and readability"]) :=
  ⟨by decide, C5_amended_fixed_point (str "Hello world!") {} (by decide)⟩
